import Mathlib

/-!
Shallow embedding of the MELCloud API client (src/index.js): a model of
the JS values the client manipulates, the device-data decoder
(`_parseDeviceData`), the command-payload encoders of `setDevice` and
`setHeatPumpDevice` with their `EffectiveFlags` bitmask, the retry
wrapper (`_retryRequest` / `_shouldRetryError`), and the public
operations as trace-producing state transformers over an abstract
remote environment.
-/

namespace MELCloud

/-- JS runtime values as far as this client manipulates them.  Numbers
are modelled as integers (no claim in scope depends on fractional
values); `nan` is the number NaN, produced here only by a failed
`parseInt` / `parseFloat`.  A `some v` parameter models an object
property that is present with a defined value. -/
inductive JsVal where
  | undefined
  | null
  | num (n : Int)
  | str (s : String)
  | bool (b : Bool)
  | nan
deriving DecidableEq

/-- JS truthiness of a value (`Boolean(v)`). -/
def JsVal.truthy : JsVal → Bool
  | .undefined => false
  | .null => false
  | .num n => n != 0
  | .str s => s != ""
  | .bool b => b
  | .nan => false

/-- The JS expression `a || b`. -/
def jsOr (a b : JsVal) : JsVal := if a.truthy then a else b

/-- Decimal value of a list of digit characters. -/
def digitsVal (cs : List Char) : Nat :=
  cs.foldl (fun acc c => 10 * acc + (c.toNat - '0'.toNat)) 0

/-- JS `parseInt(s, 10)` on a string: skip leading spaces, optional
sign, then the longest digit prefix; no digits means NaN (`none`). -/
def parseIntStr (s : String) : Option Int :=
  let cs := s.toList.dropWhile (fun c => c = ' ')
  match cs with
  | '-' :: rest =>
    let ds := rest.takeWhile Char.isDigit
    if ds = [] then none else some (-(digitsVal ds : Int))
  | '+' :: rest =>
    let ds := rest.takeWhile Char.isDigit
    if ds = [] then none else some ((digitsVal ds : Int))
  | _ =>
    let ds := cs.takeWhile Char.isDigit
    if ds = [] then none else some ((digitsVal ds : Int))

/-- JS `parseInt(v, 10)`.  On a number it is the identity here because
numbers are modelled as integers; on anything that is not a number or a
numeric string it yields NaN (as in JS, where e.g. `parseInt(true)` and
`parseInt(null)` are NaN). -/
def parseInt10 : JsVal → JsVal
  | .num n => .num n
  | .str s => match parseIntStr s with
    | some n => .num n
    | none => .nan
  | _ => .nan

/-- JS `parseFloat(v)` restricted to the integer values of this model:
identity on numbers, integer prefix of a numeric string, NaN otherwise
(fractional literals are outside the scope of the claims). -/
def parseFloat : JsVal → JsVal
  | .num n => .num n
  | .str s => match parseIntStr s with
    | some n => .num n
    | none => .nan
  | _ => .nan

/-- ASCII lowercasing of one character. -/
def charLower (c : Char) : Char :=
  if 'A' ≤ c ∧ c ≤ 'Z' then Char.ofNat (c.toNat + 32) else c

/-- ASCII lowercasing of a string (`toLowerCase()` restricted to the
ASCII alphabet, which covers every alias the client recognizes). -/
def strLower (s : String) : String :=
  String.mk (s.data.map charLower)

/-- The JS expression `typeof v === 'string' ? v.toLowerCase() : v`. -/
def jsToLower : JsVal → JsVal
  | .str s => .str (strLower s)
  | v => v

/-- Raw device record as read by `_parseDeviceData`, `getDevices` and
the two command encoders: one field per remote property the code
accesses.  Absent remote properties are `undefined`. -/
structure RawDevice where
  DeviceType : JsVal := .undefined
  Power : JsVal := .undefined
  SetTemperature : JsVal := .undefined
  RoomTemperature : JsVal := .undefined
  SetFanSpeed : JsVal := .undefined
  FanSpeed : JsVal := .undefined
  OperationMode : JsVal := .undefined
  VaneHorizontalDirection : JsVal := .undefined
  VaneVerticalDirection : JsVal := .undefined
  Offline : JsVal := .undefined
  LastCommunication : JsVal := .undefined
  NextCommunication : JsVal := .undefined
  WifiSignalStrength : JsVal := .undefined
  OutdoorTemperature : JsVal := .undefined
  ActualFanSpeed : JsVal := .undefined
  NumberOfFanSpeeds : JsVal := .undefined
  HasError : JsVal := .undefined
  ErrorCode : JsVal := .undefined
  ErrorMessage : JsVal := .undefined
  CanCool : JsVal := .undefined
  CanHeat : JsVal := .undefined
  CanDry : JsVal := .undefined
  MinTempCoolDry : JsVal := .undefined
  MaxTempCoolDry : JsVal := .undefined
  MinTempHeat : JsVal := .undefined
  MaxTempHeat : JsVal := .undefined
  MinTempAutomatic : JsVal := .undefined
  MinTempAuto : JsVal := .undefined
  MaxTempAutomatic : JsVal := .undefined
  MaxTempAuto : JsVal := .undefined
  HasZone2 : JsVal := .undefined
  RoomTemperatureZone1 : JsVal := .undefined
  RoomTemperatureZone2 : JsVal := .undefined
  TankWaterTemperature : JsVal := .undefined
  MixingTankWaterTemperature : JsVal := .undefined
  FlowTemperature : JsVal := .undefined
  FlowTemperatureZone1 : JsVal := .undefined
  FlowTemperatureZone2 : JsVal := .undefined
  FlowTemperatureBoiler : JsVal := .undefined
  ReturnTemperature : JsVal := .undefined
  ReturnTemperatureZone1 : JsVal := .undefined
  ReturnTemperatureZone2 : JsVal := .undefined
  ReturnTemperatureBoiler : JsVal := .undefined
  CondensingTemperature : JsVal := .undefined
  HeatPumpFrequency : JsVal := .undefined
  OperationState : JsVal := .undefined
  SetTankWaterTemperature : JsVal := .undefined
  SetTemperatureZone1 : JsVal := .undefined
  SetTemperatureZone2 : JsVal := .undefined
  SetHeatFlowTemperatureZone1 : JsVal := .undefined
  SetHeatFlowTemperatureZone2 : JsVal := .undefined
  SetCoolFlowTemperatureZone1 : JsVal := .undefined
  SetCoolFlowTemperatureZone2 : JsVal := .undefined
  ForcedHotWaterMode : JsVal := .undefined
  OperationModeZone1 : JsVal := .undefined
  OperationModeZone2 : JsVal := .undefined
deriving DecidableEq

/-- Lookup in the object `{ 1:'heat', 2:'dry', 3:'cold', 7:'fan', 8:'auto' }`. -/
def operationModesTable : JsVal → JsVal
  | .num 1 => .str "heat"
  | .num 2 => .str "dry"
  | .num 3 => .str "cold"
  | .num 7 => .str "fan"
  | .num 8 => .str "auto"
  | _ => .undefined

/-- Lookup in the object `{ 0:'auto', 1:'1', ..., 5:'5' }`. -/
def fanSpeedsTable : JsVal → JsVal
  | .num 0 => .str "auto"
  | .num 1 => .str "1"
  | .num 2 => .str "2"
  | .num 3 => .str "3"
  | .num 4 => .str "4"
  | .num 5 => .str "5"
  | _ => .undefined

/-- Lookup in the vane-position object (`7` and `12` both map to swing). -/
def vanePositionsTable : JsVal → JsVal
  | .num 0 => .str "auto"
  | .num 1 => .str "1"
  | .num 2 => .str "2"
  | .num 3 => .str "3"
  | .num 4 => .str "4"
  | .num 5 => .str "5"
  | .num 7 => .str "swing"
  | .num 12 => .str "swing"
  | _ => .undefined

/-- The normalized device shape produced by `_parseDeviceData`. -/
structure ParsedDevice where
  power : JsVal
  temperature : JsVal
  roomTemperature : JsVal
  fanSpeed : JsVal
  fanSpeedRaw : JsVal
  mode : JsVal
  modeRaw : JsVal
  vaneHorizontal : JsVal
  vaneHorizontalRaw : JsVal
  vaneVertical : JsVal
  vaneVerticalRaw : JsVal
  offline : JsVal
  lastCommunication : JsVal
  nextCommunication : JsVal
  wifiSignalStrength : JsVal
  outdoorTemperature : JsVal
  actualFanSpeed : JsVal
  numberOfFanSpeeds : JsVal
  hasError : JsVal
  errorCode : JsVal
  errorMessages : JsVal
  canCool : JsVal
  canHeat : JsVal
  canDry : JsVal
  minTempCoolDry : JsVal
  maxTempCoolDry : JsVal
  minTempHeat : JsVal
  maxTempHeat : JsVal
  minTempAuto : JsVal
  maxTempAuto : JsVal
  hasZone2 : JsVal
  roomTemperatureZone1 : JsVal
  roomTemperatureZone2 : JsVal
  tankWaterTemperature : JsVal
  mixingTankWaterTemperature : JsVal
  flowTemperature : JsVal
  flowTemperatureZone1 : JsVal
  flowTemperatureZone2 : JsVal
  flowTemperatureBoiler : JsVal
  returnTemperature : JsVal
  returnTemperatureZone1 : JsVal
  returnTemperatureZone2 : JsVal
  returnTemperatureBoiler : JsVal
  condensingTemperature : JsVal
  heatPumpFrequency : JsVal
  operationState : JsVal
  setTankWaterTemperature : JsVal
  setTemperatureZone1 : JsVal
  setTemperatureZone2 : JsVal
  setHeatFlowTemperatureZone1 : JsVal
  setHeatFlowTemperatureZone2 : JsVal
  setCoolFlowTemperatureZone1 : JsVal
  setCoolFlowTemperatureZone2 : JsVal
  forcedHotWaterMode : JsVal
  operationModeZone1 : JsVal
  operationModeZone2 : JsVal
deriving DecidableEq

/-- Direct transcription of `_parseDeviceData` (src/index.js lines
303-387). -/
def parseDeviceData (d : RawDevice) : ParsedDevice where
  power := d.Power
  temperature := d.SetTemperature
  roomTemperature := d.RoomTemperature
  fanSpeed := jsOr (jsOr (fanSpeedsTable d.SetFanSpeed) (fanSpeedsTable d.FanSpeed)) (.str "unknown")
  fanSpeedRaw := jsOr d.SetFanSpeed d.FanSpeed
  mode := jsOr (operationModesTable d.OperationMode) (.str "unknown")
  modeRaw := d.OperationMode
  vaneHorizontal := jsOr (vanePositionsTable d.VaneHorizontalDirection) (.str "unknown")
  vaneHorizontalRaw := d.VaneHorizontalDirection
  vaneVertical := jsOr (vanePositionsTable d.VaneVerticalDirection) (.str "unknown")
  vaneVerticalRaw := d.VaneVerticalDirection
  offline := jsOr d.Offline (.bool false)
  lastCommunication := d.LastCommunication
  nextCommunication := d.NextCommunication
  wifiSignalStrength := d.WifiSignalStrength
  outdoorTemperature := d.OutdoorTemperature
  actualFanSpeed := d.ActualFanSpeed
  numberOfFanSpeeds := d.NumberOfFanSpeeds
  hasError := jsOr d.HasError (.bool false)
  errorCode := jsOr d.ErrorCode (.num 8000)
  errorMessages := jsOr d.ErrorMessage (.str "")
  canCool := d.CanCool
  canHeat := d.CanHeat
  canDry := d.CanDry
  minTempCoolDry := d.MinTempCoolDry
  maxTempCoolDry := d.MaxTempCoolDry
  minTempHeat := d.MinTempHeat
  maxTempHeat := d.MaxTempHeat
  minTempAuto := jsOr d.MinTempAutomatic d.MinTempAuto
  maxTempAuto := jsOr d.MaxTempAutomatic d.MaxTempAuto
  hasZone2 := d.HasZone2
  roomTemperatureZone1 := d.RoomTemperatureZone1
  roomTemperatureZone2 := d.RoomTemperatureZone2
  tankWaterTemperature := d.TankWaterTemperature
  mixingTankWaterTemperature := d.MixingTankWaterTemperature
  flowTemperature := d.FlowTemperature
  flowTemperatureZone1 := d.FlowTemperatureZone1
  flowTemperatureZone2 := d.FlowTemperatureZone2
  flowTemperatureBoiler := d.FlowTemperatureBoiler
  returnTemperature := d.ReturnTemperature
  returnTemperatureZone1 := d.ReturnTemperatureZone1
  returnTemperatureZone2 := d.ReturnTemperatureZone2
  returnTemperatureBoiler := d.ReturnTemperatureBoiler
  condensingTemperature := d.CondensingTemperature
  heatPumpFrequency := d.HeatPumpFrequency
  operationState := d.OperationState
  setTankWaterTemperature := d.SetTankWaterTemperature
  setTemperatureZone1 := d.SetTemperatureZone1
  setTemperatureZone2 := d.SetTemperatureZone2
  setHeatFlowTemperatureZone1 := d.SetHeatFlowTemperatureZone1
  setHeatFlowTemperatureZone2 := d.SetHeatFlowTemperatureZone2
  setCoolFlowTemperatureZone1 := d.SetCoolFlowTemperatureZone1
  setCoolFlowTemperatureZone2 := d.SetCoolFlowTemperatureZone2
  forcedHotWaterMode := d.ForcedHotWaterMode
  operationModeZone1 := d.OperationModeZone1
  operationModeZone2 := d.OperationModeZone2

deriving instance DecidableEq for Except

/-- An error as the retry wrapper sees it: the message of the thrown
`Error`, and `response` holding the HTTP status when the failure came
from an HTTP response (axios errors); locally thrown errors (validation,
not-found, type mismatch) have no `response`. -/
structure JsError where
  message : String
  response : Option Nat
deriving DecidableEq

/-- Direct transcription of `_shouldRetryError` (src/index.js lines
83-93): retry when there is no response at all, or on 401, 429 and any
5xx status. -/
def shouldRetryError (e : JsError) : Bool :=
  match e.response with
  | none => true
  | some status => status == 401 || status == 429 || (500 ≤ status && status < 600)

/-- Payload posted to `/Device/SetAta` by `setDevice`. -/
structure AtaPayload where
  DeviceID : Int
  DeviceType : Nat
  Power : JsVal
  SetTemperature : JsVal
  SetFanSpeed : JsVal
  OperationMode : JsVal
  VaneHorizontal : JsVal
  VaneVertical : JsVal
  EffectiveFlags : Nat
deriving DecidableEq

/-- Payload posted to `/Device/SetAtw` by `setHeatPumpDevice`. -/
structure AtwPayload where
  DeviceID : Int
  DeviceType : Nat
  Power : JsVal
  ForcedHotWaterMode : JsVal
  OperationModeZone1 : JsVal
  OperationModeZone2 : JsVal
  SetTankWaterTemperature : JsVal
  SetTemperatureZone1 : JsVal
  SetTemperatureZone2 : JsVal
  SetHeatFlowTemperatureZone1 : JsVal
  SetHeatFlowTemperatureZone2 : JsVal
  SetCoolFlowTemperatureZone1 : JsVal
  SetCoolFlowTemperatureZone2 : JsVal
  EffectiveFlags : Nat
deriving DecidableEq

/-- One network interaction, in the order it is issued.  `call` is the
single abstract authenticated call used when studying the retry wrapper
on its own. -/
inductive Ev where
  | login
  | listDevices
  | deviceGet (deviceId buildingId : Int)
  | setAta (payload : AtaPayload)
  | setAtw (payload : AtwPayload)
  | energyReport (deviceId : Int) (fromDate toDate : String)
  | call
deriving DecidableEq

/-- The single piece of mutable client state: the held session token
(`this.contextKey`, `null` at construction). -/
structure ClientState where
  contextKey : Option String
deriving DecidableEq

/-- Outcome of running an operation: the network events it issued in
order, the backoff delays (in milliseconds) it slept, the final client
state, and the result or the propagated error. -/
abbrev Run (α : Type) := List Ev × List Nat × ClientState × Except JsError α

/-- Transcription of `_retryRequest` (src/index.js lines 56-77).  The JS
recursion `retries + 1` bounded by `retries < this.maxRetries` is made
structural through the extra `fuel` argument; called with
`fuel = maxRetries` the fuel never runs out before the guard stops the
recursion.  On a retryable 401 the context key is cleared before the
retry; the backoff before retry `retries` is `2 ^ retries * 1000` ms. -/
def retryReqGo (fn : ClientState → Run α) (maxRetries : Nat) :
    Nat → Nat → ClientState → Run α
  | fuel, retries, s =>
    match fn s with
    | (t, d, s1, .ok a) => (t, d, s1, .ok a)
    | (t, d, s1, .error e) =>
      if shouldRetryError e && retries < maxRetries then
        match fuel with
        | 0 => (t, d, s1, .error e)
        | fuel + 1 =>
          let s2 := if e.response = some 401 then { s1 with contextKey := none } else s1
          match retryReqGo fn maxRetries fuel (retries + 1) s2 with
          | (t2, d2, s3, r) => (t ++ t2, d ++ (2 ^ retries * 1000) :: d2, s3, r)
      else (t, d, s1, .error e)

/-- The retry wrapper as every public operation invokes it
(`this._retryRequest(requestFn)`, i.e. starting at `retries = 0`). -/
def retryRequest (fn : ClientState → Run α) (maxRetries : Nat) (s : ClientState) : Run α :=
  retryReqGo fn maxRetries maxRetries 0 s

/-- Parameters accepted by `setDevice`; `none` is an absent property
(the code tests each with `!== undefined`). -/
structure AtaParams where
  power : Option JsVal := none
  temperature : Option JsVal := none
  fanSpeed : Option JsVal := none
  mode : Option JsVal := none
  vaneHorizontal : Option JsVal := none
  vaneVertical : Option JsVal := none
deriving DecidableEq

/-- Parameters accepted by `setHeatPumpDevice`. -/
structure AtwParams where
  power : Option JsVal := none
  forcedHotWaterMode : Option JsVal := none
  operationModeZone1 : Option JsVal := none
  operationModeZone2 : Option JsVal := none
  setTankWaterTemperature : Option JsVal := none
  setTemperatureZone1 : Option JsVal := none
  setTemperatureZone2 : Option JsVal := none
  setHeatFlowTemperatureZone1 : Option JsVal := none
  setHeatFlowTemperatureZone2 : Option JsVal := none
  setCoolFlowTemperatureZone1 : Option JsVal := none
  setCoolFlowTemperatureZone2 : Option JsVal := none
deriving DecidableEq

/-- Lookup in `modeMappings` (src/index.js lines 201-223): mode aliases
after lowercasing, plus the numeric keys `1`..`8` (a JS numeric property
access coerces the number to its decimal key). -/
def modeMappings : JsVal → JsVal
  | .str "heat" => .num 1
  | .str "hot" => .num 1
  | .str "h" => .num 1
  | .str "1" => .num 1
  | .str "dry" => .num 2
  | .str "d" => .num 2
  | .str "2" => .num 2
  | .str "cold" => .num 3
  | .str "cool" => .num 3
  | .str "c" => .num 3
  | .str "3" => .num 3
  | .str "4" => .num 4
  | .str "5" => .num 5
  | .str "6" => .num 6
  | .str "fan" => .num 7
  | .str "air" => .num 7
  | .str "f" => .num 7
  | .str "7" => .num 7
  | .str "auto" => .num 8
  | .str "a" => .num 8
  | .str "8" => .num 8
  | .num n => if 1 ≤ n ∧ n ≤ 8 then .num n else .undefined
  | _ => .undefined

/-- Lookup in `vaneHorizontalMappings = { auto: 0, swing: 12 }`. -/
def vaneHorizontalMappings : JsVal → JsVal
  | .str "auto" => .num 0
  | .str "swing" => .num 12
  | _ => .undefined

/-- Lookup in `vaneVerticalMappings = { auto: 0, swing: 7 }`. -/
def vaneVerticalMappings : JsVal → JsVal
  | .str "auto" => .num 0
  | .str "swing" => .num 7
  | _ => .undefined

/-- The `params.power` block of `setDevice` (flag constant
`flagMappings.power = 1`). -/
def ataStepPower (params : AtaParams) (p : AtaPayload) : AtaPayload :=
  match params.power with
  | none => p
  | some v => { p with Power := .bool v.truthy, EffectiveFlags := p.EffectiveFlags + 1 }

/-- The `params.temperature` block (`flagMappings.settemperature = 4`). -/
def ataStepTemperature (params : AtaParams) (p : AtaPayload) : AtaPayload :=
  match params.temperature with
  | none => p
  | some v => { p with SetTemperature := parseFloat v, EffectiveFlags := p.EffectiveFlags + 4 }

/-- The `params.fanSpeed` block (`flagMappings.setfanspeed = 8`):
`'auto'` maps to 0, anything else goes through `parseInt`. -/
def ataStepFanSpeed (params : AtaParams) (p : AtaPayload) : AtaPayload :=
  match params.fanSpeed with
  | none => p
  | some v =>
    { p with SetFanSpeed := if v = .str "auto" then .num 0 else parseInt10 v,
             EffectiveFlags := p.EffectiveFlags + 8 }

/-- The `params.mode` block (`flagMappings.operationmode = 2`):
lowercase a string, then `modeMappings[mode] || parseInt(mode, 10)`. -/
def ataStepMode (params : AtaParams) (p : AtaPayload) : AtaPayload :=
  match params.mode with
  | none => p
  | some v =>
    let m := jsToLower v
    { p with OperationMode := jsOr (modeMappings m) (parseInt10 m),
             EffectiveFlags := p.EffectiveFlags + 2 }

/-- The `params.vaneHorizontal` block (`flagMappings.vanehorizontal =
256`): the mapping wins only when its lookup is not `undefined`. -/
def ataStepVaneHorizontal (params : AtaParams) (p : AtaPayload) : AtaPayload :=
  match params.vaneHorizontal with
  | none => p
  | some v =>
    let w := jsToLower v
    { p with VaneHorizontal := if vaneHorizontalMappings w ≠ .undefined
               then vaneHorizontalMappings w else parseInt10 w,
             EffectiveFlags := p.EffectiveFlags + 256 }

/-- The `params.vaneVertical` block (`flagMappings.vanevertical = 16`). -/
def ataStepVaneVertical (params : AtaParams) (p : AtaPayload) : AtaPayload :=
  match params.vaneVertical with
  | none => p
  | some v =>
    let w := jsToLower v
    { p with VaneVertical := if vaneVerticalMappings w ≠ .undefined
               then vaneVerticalMappings w else parseInt10 w,
             EffectiveFlags := p.EffectiveFlags + 16 }

/-- The error thrown when `payload.EffectiveFlags === 0`. -/
def noValidParamsError : JsError := { message := "No valid parameters provided to set", response := none }

/-- Payload construction of `setDevice` (src/index.js lines 188-280):
seed from the current decoded state, apply the six parameter blocks in
source order, then reject a zero bitmask. -/
def buildAtaPayload (deviceId : Int) (cur : ParsedDevice) (params : AtaParams) :
    Except JsError AtaPayload :=
  let p0 : AtaPayload :=
    { DeviceID := deviceId
      DeviceType := 0
      Power := cur.power
      SetTemperature := cur.temperature
      SetFanSpeed := cur.fanSpeedRaw
      OperationMode := cur.modeRaw
      VaneHorizontal := cur.vaneHorizontalRaw
      VaneVertical := cur.vaneVerticalRaw
      EffectiveFlags := 0 }
  let p6 := ataStepVaneVertical params (ataStepVaneHorizontal params (ataStepMode params
    (ataStepFanSpeed params (ataStepTemperature params (ataStepPower params p0)))))
  if p6.EffectiveFlags = 0 then .error noValidParamsError else .ok p6

/-- The error thrown by the zone-2 guards of `setHeatPumpDevice`. -/
def noZone2Error : JsError := { message := "Device does not have Zone 2", response := none }

/-- The `params.power` block of `setHeatPumpDevice`
(`atwFlagMappings.power = 1`). -/
def atwStepPower (params : AtwParams) (p : AtwPayload) : AtwPayload :=
  match params.power with
  | none => p
  | some v => { p with Power := .bool v.truthy, EffectiveFlags := p.EffectiveFlags + 1 }

/-- The `params.forcedHotWaterMode` block (flag 2). -/
def atwStepForcedHotWater (params : AtwParams) (p : AtwPayload) : AtwPayload :=
  match params.forcedHotWaterMode with
  | none => p
  | some v => { p with ForcedHotWaterMode := .bool v.truthy, EffectiveFlags := p.EffectiveFlags + 2 }

/-- The `params.operationModeZone1` block (flag 4). -/
def atwStepOpModeZone1 (params : AtwParams) (p : AtwPayload) : AtwPayload :=
  match params.operationModeZone1 with
  | none => p
  | some v => { p with OperationModeZone1 := parseInt10 v, EffectiveFlags := p.EffectiveFlags + 4 }

/-- The `params.operationModeZone2` block (flag 8), guarded by
`currentStatus.hasZone2`. -/
def atwStepOpModeZone2 (hasZone2 : JsVal) (params : AtwParams) (p : AtwPayload) :
    Except JsError AtwPayload :=
  match params.operationModeZone2 with
  | none => .ok p
  | some v =>
    if hasZone2.truthy then
      .ok { p with OperationModeZone2 := parseInt10 v, EffectiveFlags := p.EffectiveFlags + 8 }
    else .error noZone2Error

/-- The `params.setTankWaterTemperature` block (flag 16). -/
def atwStepTank (params : AtwParams) (p : AtwPayload) : AtwPayload :=
  match params.setTankWaterTemperature with
  | none => p
  | some v => { p with SetTankWaterTemperature := parseFloat v, EffectiveFlags := p.EffectiveFlags + 16 }

/-- The `params.setTemperatureZone1` block (flag 32). -/
def atwStepTempZone1 (params : AtwParams) (p : AtwPayload) : AtwPayload :=
  match params.setTemperatureZone1 with
  | none => p
  | some v => { p with SetTemperatureZone1 := parseFloat v, EffectiveFlags := p.EffectiveFlags + 32 }

/-- The `params.setTemperatureZone2` block (flag 64), zone-2 guarded. -/
def atwStepTempZone2 (hasZone2 : JsVal) (params : AtwParams) (p : AtwPayload) :
    Except JsError AtwPayload :=
  match params.setTemperatureZone2 with
  | none => .ok p
  | some v =>
    if hasZone2.truthy then
      .ok { p with SetTemperatureZone2 := parseFloat v, EffectiveFlags := p.EffectiveFlags + 64 }
    else .error noZone2Error

/-- The `params.setHeatFlowTemperatureZone1` block (flag 128). -/
def atwStepHeatFlowZone1 (params : AtwParams) (p : AtwPayload) : AtwPayload :=
  match params.setHeatFlowTemperatureZone1 with
  | none => p
  | some v => { p with SetHeatFlowTemperatureZone1 := parseFloat v, EffectiveFlags := p.EffectiveFlags + 128 }

/-- The `params.setHeatFlowTemperatureZone2` block (flag 256), zone-2
guarded. -/
def atwStepHeatFlowZone2 (hasZone2 : JsVal) (params : AtwParams) (p : AtwPayload) :
    Except JsError AtwPayload :=
  match params.setHeatFlowTemperatureZone2 with
  | none => .ok p
  | some v =>
    if hasZone2.truthy then
      .ok { p with SetHeatFlowTemperatureZone2 := parseFloat v, EffectiveFlags := p.EffectiveFlags + 256 }
    else .error noZone2Error

/-- The `params.setCoolFlowTemperatureZone1` block (flag 512). -/
def atwStepCoolFlowZone1 (params : AtwParams) (p : AtwPayload) : AtwPayload :=
  match params.setCoolFlowTemperatureZone1 with
  | none => p
  | some v => { p with SetCoolFlowTemperatureZone1 := parseFloat v, EffectiveFlags := p.EffectiveFlags + 512 }

/-- The `params.setCoolFlowTemperatureZone2` block (flag 1024), zone-2
guarded. -/
def atwStepCoolFlowZone2 (hasZone2 : JsVal) (params : AtwParams) (p : AtwPayload) :
    Except JsError AtwPayload :=
  match params.setCoolFlowTemperatureZone2 with
  | none => .ok p
  | some v =>
    if hasZone2.truthy then
      .ok { p with SetCoolFlowTemperatureZone2 := parseFloat v, EffectiveFlags := p.EffectiveFlags + 1024 }
    else .error noZone2Error

/-- The eleven parameter blocks of `setHeatPumpDevice` in source order
(the four zone-2 blocks may throw), followed by the zero-bitmask check,
applied to an already-seeded payload. -/
def atwApplyParams (hasZone2 : JsVal) (params : AtwParams) (p0 : AtwPayload) :
    Except JsError AtwPayload :=
  let p3 := atwStepOpModeZone1 params (atwStepForcedHotWater params (atwStepPower params p0))
  match atwStepOpModeZone2 hasZone2 params p3 with
  | .error e => .error e
  | .ok p4 =>
    let p6 := atwStepTempZone1 params (atwStepTank params p4)
    match atwStepTempZone2 hasZone2 params p6 with
    | .error e => .error e
    | .ok p7 =>
      let p8 := atwStepHeatFlowZone1 params p7
      match atwStepHeatFlowZone2 hasZone2 params p8 with
      | .error e => .error e
      | .ok p9 =>
        let p10 := atwStepCoolFlowZone1 params p9
        match atwStepCoolFlowZone2 hasZone2 params p10 with
        | .error e => .error e
        | .ok p11 =>
          if p11.EffectiveFlags = 0 then .error noValidParamsError else .ok p11

/-- Payload construction of `setHeatPumpDevice` (src/index.js lines
420-522): seed from the current decoded state with the `||` defaults,
then apply the eleven parameter blocks in source order and reject a
zero bitmask. -/
def buildAtwPayload (deviceId : Int) (cur : ParsedDevice) (params : AtwParams) :
    Except JsError AtwPayload :=
  let p0 : AtwPayload :=
    { DeviceID := deviceId
      DeviceType := 1
      Power := cur.power
      ForcedHotWaterMode := jsOr cur.forcedHotWaterMode (.bool false)
      OperationModeZone1 := jsOr cur.operationModeZone1 (.num 0)
      OperationModeZone2 := jsOr cur.operationModeZone2 (.num 0)
      SetTankWaterTemperature := jsOr cur.setTankWaterTemperature (.num 40)
      SetTemperatureZone1 := jsOr cur.setTemperatureZone1 (.num 20)
      SetTemperatureZone2 := jsOr cur.setTemperatureZone2 (.num 20)
      SetHeatFlowTemperatureZone1 := jsOr cur.setHeatFlowTemperatureZone1 (.num 35)
      SetHeatFlowTemperatureZone2 := jsOr cur.setHeatFlowTemperatureZone2 (.num 35)
      SetCoolFlowTemperatureZone1 := jsOr cur.setCoolFlowTemperatureZone1 (.num 18)
      SetCoolFlowTemperatureZone2 := jsOr cur.setCoolFlowTemperatureZone2 (.num 18)
      EffectiveFlags := 0 }
  atwApplyParams cur.hasZone2 params p0

/-- One device entry of the `ListDevices` tree (`area.Devices[i]`). -/
structure RawDeviceEntry where
  DeviceID : Int
  DeviceName : String
  Device : RawDevice
deriving DecidableEq

/-- One area of the tree. -/
structure RawArea where
  Devices : List RawDeviceEntry
deriving DecidableEq

/-- One floor of the tree. -/
structure RawFloor where
  Areas : List RawArea
deriving DecidableEq

/-- The `Structure` object of a building. -/
structure RawStructure where
  Floors : List RawFloor
deriving DecidableEq

/-- One building of the `ListDevices` response. -/
structure RawBuilding where
  ID : Int
  Structure : RawStructure
deriving DecidableEq

/-- Raw `/EnergyCost/Report` response, one field per property the code
reads. -/
structure EnergyRaw where
  TotalMinutes : JsVal := .undefined
  TotalPowerConsumption : JsVal := .undefined
  TotalPowerProduction : JsVal := .undefined
  TotalPowerConsumptionAuto : JsVal := .undefined
  TotalPowerConsumptionHeat : JsVal := .undefined
  TotalPowerConsumptionCool : JsVal := .undefined
  TotalPowerConsumptionDry : JsVal := .undefined
  TotalPowerConsumptionVent : JsVal := .undefined
  TotalHeatingConsumed : JsVal := .undefined
  TotalCoolingConsumed : JsVal := .undefined
  TotalHotWaterConsumed : JsVal := .undefined
  TotalHeatingProduced : JsVal := .undefined
  TotalCoolingProduced : JsVal := .undefined
  TotalHotWaterProduced : JsVal := .undefined
deriving DecidableEq

/-- The remote service as the claims need it: a deterministic
environment in which every HTTP exchange succeeds (failure injection
for the retry claims is done through explicit work functions instead).
`deviceGet id b` is the body answered by `/Device/Get`. -/
structure Env where
  loginKey : String
  tree : List RawBuilding
  deviceGet : Int → Int → RawDevice
  energyData : EnergyRaw

/-- One element of the flattened device list built by `getDevices`. -/
structure DeviceListEntry where
  id : Int
  index : Nat
  buildingId : Int
  name : String
  type : JsVal
  data : ParsedDevice
deriving DecidableEq

/-- The record returned by `getDevice`.  The JS object is
`{ id, buildingId, ...parseDeviceData(data) }`; it carries no `type`
property, so reading `.type` on it yields `undefined` — kept here as an
explicit field that `getDevice` always sets to `undefined`. -/
structure DeviceDetail where
  id : Int
  buildingId : Int
  type : JsVal
  data : ParsedDevice
deriving DecidableEq

/-- The normalized record returned by `getEnergyReport`. -/
structure EnergyReport where
  deviceId : Int
  fromDate : String
  toDate : String
  totalMinutes : JsVal
  totalPowerConsumption : JsVal
  totalPowerProduction : JsVal
  totalPowerConsumptionAuto : JsVal
  totalPowerConsumptionHeat : JsVal
  totalPowerConsumptionCool : JsVal
  totalPowerConsumptionDry : JsVal
  totalPowerConsumptionVent : JsVal
  totalPowerConsumptionHeating : JsVal
  totalPowerConsumptionCooling : JsVal
  totalPowerConsumptionHotWater : JsVal
  totalPowerProductionHeating : JsVal
  totalPowerProductionCooling : JsVal
  totalPowerProductionHotWater : JsVal
  rawData : EnergyRaw
deriving DecidableEq

/-- Falsiness of the held token: `!this.contextKey` is true for `null`
and for the empty string. -/
def tokenFalsy : Option String → Bool
  | none => true
  | some s => s == ""

/-- Falsiness of an optional numeric argument: `!buildingId` is true
for `null` (the default) and for the number 0. -/
def numFalsy : Option Int → Bool
  | none => true
  | some n => n == 0

/-- The building→floor→area→device flattening of `getDevices`
(src/index.js lines 108-128): sequential `forEach` pushes, stamping a
zero-based running index and the owning building id. -/
def flattenDevices (tree : List RawBuilding) : List DeviceListEntry :=
  let pairs := tree.flatMap fun b =>
    (b.Structure.Floors.flatMap fun f => f.Areas.flatMap fun a => a.Devices).map
      fun dev => (b.ID, dev)
  pairs.mapIdx fun i pr =>
    { id := pr.2.DeviceID
      index := i
      buildingId := pr.1
      name := pr.2.DeviceName
      type := pr.2.Device.DeviceType
      data := parseDeviceData pr.2.Device }

/-- One attempt of `login` (src/index.js lines 20-40): the POST to
`/Login/ClientLogin2` succeeds in this environment and stores the
granted context key. -/
def loginAttempt (env : Env) (_s : ClientState) : Run String :=
  ([Ev.login], [], { contextKey := some env.loginKey }, .ok env.loginKey)

/-- The public `login`, wrapped in the retry wrapper with
`maxRetries = 2` (the constructor constant, src/index.js line 13). -/
def loginRun (env : Env) (s : ClientState) : Run String :=
  retryRequest (loginAttempt env) 2 s

/-- Transcription of `_ensureAuthenticated` (src/index.js lines 46-50):
log in only when no token is held; the login result value is unused. -/
def ensureAuthRun (env : Env) (s : ClientState) : List Ev × List Nat × ClientState :=
  if tokenFalsy s.contextKey then
    match loginRun env s with
    | (t, d, s1, _) => (t, d, s1)
  else ([], [], s)

/-- One attempt of `getDevices` (src/index.js lines 99-130): ensure a
session, GET `/User/ListDevices`, flatten the tree. -/
def getDevicesAttempt (env : Env) (s : ClientState) : Run (List DeviceListEntry) :=
  match ensureAuthRun env s with
  | (t, d, s1) => (t ++ [Ev.listDevices], d, s1, .ok (flattenDevices env.tree))

/-- The public `getDevices`. -/
def getDevicesRun (env : Env) (s : ClientState) : Run (List DeviceListEntry) :=
  retryRequest (getDevicesAttempt env) 2 s

/-- The `Device with ID ... not found` error. -/
def notFoundError (deviceId : Int) : JsError :=
  { message := s!"Device with ID {deviceId} not found", response := none }

/-- One attempt of `getDevice` (src/index.js lines 138-163): ensure a
session; when `buildingId` is falsy, resolve it by scanning the device
list (NotFound when absent); then GET `/Device/Get` and decode. -/
def getDeviceAttempt (env : Env) (deviceId : Int) (buildingId : Option Int)
    (s : ClientState) : Run DeviceDetail :=
  match ensureAuthRun env s with
  | (t1, d1, s1) =>
    let resolved : Run Int :=
      if numFalsy buildingId then
        match getDevicesRun env s1 with
        | (t2, d2, s2, .error e) => (t2, d2, s2, .error e)
        | (t2, d2, s2, .ok devices) =>
          match devices.find? (fun dv => dv.id == deviceId) with
          | none => (t2, d2, s2, .error (notFoundError deviceId))
          | some dv => (t2, d2, s2, .ok dv.buildingId)
      else ([], [], s1, .ok (buildingId.getD 0))
    match resolved with
    | (t2, d2, s2, .error e) => (t1 ++ t2, d1 ++ d2, s2, .error e)
    | (t2, d2, s2, .ok bid) =>
      (t1 ++ t2 ++ [Ev.deviceGet deviceId bid], d1 ++ d2, s2,
       .ok { id := deviceId, buildingId := bid, type := JsVal.undefined,
             data := parseDeviceData (env.deviceGet deviceId bid) })

/-- The public `getDevice`. -/
def getDeviceRun (env : Env) (deviceId : Int) (buildingId : Option Int)
    (s : ClientState) : Run DeviceDetail :=
  retryRequest (getDeviceAttempt env deviceId buildingId) 2 s

/-- One attempt of `setDevice` (src/index.js lines 179-297): ensure a
session, fetch the current state (which resolves the building id),
build the payload, POST `/Device/SetAta`, then re-fetch after the
settle delay (the settle delay is not a network event and is not
traced). -/
def setDeviceAttempt (env : Env) (deviceId : Int) (params : AtaParams)
    (buildingId : Option Int) (s : ClientState) : Run DeviceDetail :=
  match ensureAuthRun env s with
  | (t1, d1, s1) =>
    match getDeviceRun env deviceId buildingId s1 with
    | (t2, d2, s2, .error e) => (t1 ++ t2, d1 ++ d2, s2, .error e)
    | (t2, d2, s2, .ok cur) =>
      match buildAtaPayload deviceId cur.data params with
      | .error e => (t1 ++ t2, d1 ++ d2, s2, .error e)
      | .ok payload =>
        match getDeviceRun env deviceId (some cur.buildingId) s2 with
        | (t3, d3, s3, r) =>
          (t1 ++ t2 ++ [Ev.setAta payload] ++ t3, d1 ++ d2 ++ d3, s3, r)

/-- The public `setDevice`. -/
def setDeviceRun (env : Env) (deviceId : Int) (params : AtaParams)
    (buildingId : Option Int) (s : ClientState) : Run DeviceDetail :=
  retryRequest (setDeviceAttempt env deviceId params buildingId) 2 s

/-- The error thrown by the capability check of `setHeatPumpDevice`. -/
def notHeatPumpError : JsError :=
  { message := "Device is not a heat pump (ATW device)", response := none }

/-- One attempt of `setHeatPumpDevice` (src/index.js lines 407-539).
The capability check reads `currentStatus.type`, a property the
`getDevice` record does not carry (it is always `undefined` there), and
compares it against 1 with `!==`. -/
def setHeatPumpDeviceAttempt (env : Env) (deviceId : Int) (params : AtwParams)
    (buildingId : Option Int) (s : ClientState) : Run DeviceDetail :=
  match ensureAuthRun env s with
  | (t1, d1, s1) =>
    match getDeviceRun env deviceId buildingId s1 with
    | (t2, d2, s2, .error e) => (t1 ++ t2, d1 ++ d2, s2, .error e)
    | (t2, d2, s2, .ok cur) =>
      if cur.type ≠ .num 1 then (t1 ++ t2, d1 ++ d2, s2, .error notHeatPumpError)
      else
        match buildAtwPayload deviceId cur.data params with
        | .error e => (t1 ++ t2, d1 ++ d2, s2, .error e)
        | .ok payload =>
          match getDeviceRun env deviceId (some cur.buildingId) s2 with
          | (t3, d3, s3, r) =>
            (t1 ++ t2 ++ [Ev.setAtw payload] ++ t3, d1 ++ d2 ++ d3, s3, r)

/-- The public `setHeatPumpDevice`. -/
def setHeatPumpDeviceRun (env : Env) (deviceId : Int) (params : AtwParams)
    (buildingId : Option Int) (s : ClientState) : Run DeviceDetail :=
  retryRequest (setHeatPumpDeviceAttempt env deviceId params buildingId) 2 s

/-- The strict date pattern `^\d{4}-\d{2}-\d{2}$`. -/
def isDateFormat (s : String) : Bool :=
  match s.toList with
  | [a, b, c, d, '-', e, f, '-', g, h] =>
    a.isDigit && b.isDigit && c.isDigit && d.isDigit && e.isDigit && f.isDigit
      && g.isDigit && h.isDigit
  | _ => false

/-- The error thrown on a malformed date. -/
def dateFormatError : JsError :=
  { message := "Date format must be YYYY-MM-DD", response := none }

/-- Normalization of the energy response (src/index.js lines 584-605):
each aggregate defaults to 0 through `||`, and the raw body rides
along untouched. -/
def normalizeEnergy (deviceId : Int) (fromDate toDate : String) (raw : EnergyRaw) :
    EnergyReport where
  deviceId := deviceId
  fromDate := fromDate
  toDate := toDate
  totalMinutes := jsOr raw.TotalMinutes (.num 0)
  totalPowerConsumption := jsOr raw.TotalPowerConsumption (.num 0)
  totalPowerProduction := jsOr raw.TotalPowerProduction (.num 0)
  totalPowerConsumptionAuto := jsOr raw.TotalPowerConsumptionAuto (.num 0)
  totalPowerConsumptionHeat := jsOr raw.TotalPowerConsumptionHeat (.num 0)
  totalPowerConsumptionCool := jsOr raw.TotalPowerConsumptionCool (.num 0)
  totalPowerConsumptionDry := jsOr raw.TotalPowerConsumptionDry (.num 0)
  totalPowerConsumptionVent := jsOr raw.TotalPowerConsumptionVent (.num 0)
  totalPowerConsumptionHeating := jsOr raw.TotalHeatingConsumed (.num 0)
  totalPowerConsumptionCooling := jsOr raw.TotalCoolingConsumed (.num 0)
  totalPowerConsumptionHotWater := jsOr raw.TotalHotWaterConsumed (.num 0)
  totalPowerProductionHeating := jsOr raw.TotalHeatingProduced (.num 0)
  totalPowerProductionCooling := jsOr raw.TotalCoolingProduced (.num 0)
  totalPowerProductionHotWater := jsOr raw.TotalHotWaterProduced (.num 0)
  rawData := raw

/-- One attempt of `getEnergyReport` (src/index.js lines 549-607):
ensure a session; when `buildingId` is falsy, resolve it from the
device list; only then validate the two dates; then POST the report
query. -/
def getEnergyReportAttempt (env : Env) (deviceId : Int) (fromDate toDate : String)
    (buildingId : Option Int) (s : ClientState) : Run EnergyReport :=
  match ensureAuthRun env s with
  | (t1, d1, s1) =>
    let resolved : Run Int :=
      if numFalsy buildingId then
        match getDevicesRun env s1 with
        | (t2, d2, s2, .error e) => (t2, d2, s2, .error e)
        | (t2, d2, s2, .ok devices) =>
          match devices.find? (fun dv => dv.id == deviceId) with
          | none => (t2, d2, s2, .error (notFoundError deviceId))
          | some dv => (t2, d2, s2, .ok dv.buildingId)
      else ([], [], s1, .ok (buildingId.getD 0))
    match resolved with
    | (t2, d2, s2, .error e) => (t1 ++ t2, d1 ++ d2, s2, .error e)
    | (t2, d2, s2, .ok _bid) =>
      if !(isDateFormat fromDate) || !(isDateFormat toDate) then
        (t1 ++ t2, d1 ++ d2, s2, .error dateFormatError)
      else
        (t1 ++ t2 ++ [Ev.energyReport deviceId fromDate toDate], d1 ++ d2, s2,
         .ok (normalizeEnergy deviceId fromDate toDate env.energyData))

/-- The public `getEnergyReport`. -/
def getEnergyReportRun (env : Env) (deviceId : Int) (fromDate toDate : String)
    (buildingId : Option Int) (s : ClientState) : Run EnergyReport :=
  retryRequest (getEnergyReportAttempt env deviceId fromDate toDate buildingId) 2 s

/-- Number of set bits among the 11 low bits of `n`; every
`EffectiveFlags` mask in this client fits in 11 bits (the largest
constant is 1024). -/
def popBitsGo : Nat → Nat → Nat
  | 0, _ => 0
  | k + 1, n => n % 2 + popBitsGo k (n / 2)

/-- Popcount restricted to the 11 low bits. -/
def popBits (n : Nat) : Nat := popBitsGo 11 n

/-- Whether bit `k` of `n` is set. -/
def bitIsSet (n k : Nat) : Bool := n / 2 ^ k % 2 == 1

theorem bitIsSet_false_of_lt (n k : Nat) (h : n < 2 ^ k) : bitIsSet n k = false := by
  unfold bitIsSet
  rw [Nat.div_eq_of_lt h]
  rfl

theorem bitIsSet_high_false (n k : Nat) (hn : n < 2048) (hk : 11 ≤ k) :
    bitIsSet n k = false :=
  bitIsSet_false_of_lt n k
    (lt_of_lt_of_le hn (le_trans (by norm_num) (Nat.pow_le_pow_right (by norm_num) hk)))

/-- The six fields `setDevice` accepts. -/
inductive AtaField where
  | power
  | temperature
  | fanSpeed
  | mode
  | vaneHorizontal
  | vaneVertical
deriving DecidableEq, Fintype

/-- The bit constant of an air-conditioner field (the `flagMappings`
object). -/
def ataFlagConst : AtaField → Nat
  | .power => 1
  | .temperature => 4
  | .fanSpeed => 8
  | .mode => 2
  | .vaneHorizontal => 256
  | .vaneVertical => 16

/-- Bit position of an air-conditioner field constant. -/
def ataFlagIdx : AtaField → Nat
  | .power => 0
  | .temperature => 2
  | .fanSpeed => 3
  | .mode => 1
  | .vaneHorizontal => 8
  | .vaneVertical => 4

/-- The mask accumulated by the six `setDevice` blocks, as a function of
which fields are present (source order: power, temperature, fanSpeed,
mode, vaneHorizontal, vaneVertical). -/
def ataFlagsB (b1 b2 b3 b4 b5 b6 : Bool) : Nat :=
  (if b1 then 1 else 0) + (if b2 then 4 else 0) + (if b3 then 8 else 0)
    + (if b4 then 2 else 0) + (if b5 then 256 else 0) + (if b6 then 16 else 0)

/-- Field presence as a function of the six presence booleans. -/
def ataSuppliedB (b1 b2 b3 b4 b5 b6 : Bool) : AtaField → Bool
  | .power => b1
  | .temperature => b2
  | .fanSpeed => b3
  | .mode => b4
  | .vaneHorizontal => b5
  | .vaneVertical => b6

/-- Number of present fields. -/
def ataSuppliedCountB (b1 b2 b3 b4 b5 b6 : Bool) : Nat :=
  (if b1 then 1 else 0) + (if b2 then 1 else 0) + (if b3 then 1 else 0)
    + (if b4 then 1 else 0) + (if b5 then 1 else 0) + (if b6 then 1 else 0)

/-- Whether a `setDevice` field is present in the params object. -/
def ataSupplied (params : AtaParams) : AtaField → Bool :=
  ataSuppliedB params.power.isSome params.temperature.isSome params.fanSpeed.isSome
    params.mode.isSome params.vaneHorizontal.isSome params.vaneVertical.isSome

/-- Number of `setDevice` fields present in the params object. -/
def ataSuppliedCount (params : AtaParams) : Nat :=
  ataSuppliedCountB params.power.isSome params.temperature.isSome params.fanSpeed.isSome
    params.mode.isSome params.vaneHorizontal.isSome params.vaneVertical.isSome

theorem ataStepPower_flags (params : AtaParams) (p : AtaPayload) :
    (ataStepPower params p).EffectiveFlags
      = p.EffectiveFlags + (if params.power.isSome then 1 else 0) := by
  cases hp : params.power <;> simp [ataStepPower, hp]

theorem ataStepTemperature_flags (params : AtaParams) (p : AtaPayload) :
    (ataStepTemperature params p).EffectiveFlags
      = p.EffectiveFlags + (if params.temperature.isSome then 4 else 0) := by
  cases hp : params.temperature <;> simp [ataStepTemperature, hp]

theorem ataStepFanSpeed_flags (params : AtaParams) (p : AtaPayload) :
    (ataStepFanSpeed params p).EffectiveFlags
      = p.EffectiveFlags + (if params.fanSpeed.isSome then 8 else 0) := by
  cases hp : params.fanSpeed <;> simp [ataStepFanSpeed, hp]

theorem ataStepMode_flags (params : AtaParams) (p : AtaPayload) :
    (ataStepMode params p).EffectiveFlags
      = p.EffectiveFlags + (if params.mode.isSome then 2 else 0) := by
  cases hp : params.mode <;> simp [ataStepMode, hp]

theorem ataStepVaneHorizontal_flags (params : AtaParams) (p : AtaPayload) :
    (ataStepVaneHorizontal params p).EffectiveFlags
      = p.EffectiveFlags + (if params.vaneHorizontal.isSome then 256 else 0) := by
  cases hp : params.vaneHorizontal <;> simp [ataStepVaneHorizontal, hp]

theorem ataStepVaneVertical_flags (params : AtaParams) (p : AtaPayload) :
    (ataStepVaneVertical params p).EffectiveFlags
      = p.EffectiveFlags + (if params.vaneVertical.isSome then 16 else 0) := by
  cases hp : params.vaneVertical <;> simp [ataStepVaneVertical, hp]

/-- The bitmask of an accepted `setDevice` payload is exactly the sum of
the constants of the supplied fields, in source order. -/
theorem buildAtaPayload_flags (deviceId : Int) (cur : ParsedDevice) (params : AtaParams)
    (payload : AtaPayload) (h : buildAtaPayload deviceId cur params = .ok payload) :
    payload.EffectiveFlags
      = ataFlagsB params.power.isSome params.temperature.isSome params.fanSpeed.isSome
          params.mode.isSome params.vaneHorizontal.isSome params.vaneVertical.isSome := by
  simp only [buildAtaPayload] at h
  split at h
  · exact Except.noConfusion h
  · simp only [Except.ok.injEq] at h
    subst h
    simp [ataFlagsB, ataStepVaneVertical_flags, ataStepVaneHorizontal_flags, ataStepMode_flags,
      ataStepFanSpeed_flags, ataStepTemperature_flags, ataStepPower_flags]

/-- Bit-level facts about the air-conditioner mask, checked over all 64
presence combinations. -/
theorem ataFlagsB_spec (b1 b2 b3 b4 b5 b6 : Bool) :
    popBits (ataFlagsB b1 b2 b3 b4 b5 b6) = ataSuppliedCountB b1 b2 b3 b4 b5 b6
    ∧ (∀ f : AtaField, bitIsSet (ataFlagsB b1 b2 b3 b4 b5 b6) (ataFlagIdx f)
        = ataSuppliedB b1 b2 b3 b4 b5 b6 f)
    ∧ (∀ k : Nat, k < 11 → bitIsSet (ataFlagsB b1 b2 b3 b4 b5 b6) k = true →
        ∃ f : AtaField, ataFlagIdx f = k ∧ ataSuppliedB b1 b2 b3 b4 b5 b6 f = true)
    ∧ ataFlagsB b1 b2 b3 b4 b5 b6 < 2048 := by
  revert b1 b2 b3 b4 b5 b6
  decide

/-- The eleven fields `setHeatPumpDevice` accepts. -/
inductive AtwField where
  | power
  | forcedHotWaterMode
  | operationModeZone1
  | operationModeZone2
  | setTankWaterTemperature
  | setTemperatureZone1
  | setTemperatureZone2
  | setHeatFlowTemperatureZone1
  | setHeatFlowTemperatureZone2
  | setCoolFlowTemperatureZone1
  | setCoolFlowTemperatureZone2
deriving DecidableEq, Fintype

/-- The bit constant of a heat-pump field (the `atwFlagMappings`
object). -/
def atwFlagConst : AtwField → Nat
  | .power => 1
  | .forcedHotWaterMode => 2
  | .operationModeZone1 => 4
  | .operationModeZone2 => 8
  | .setTankWaterTemperature => 16
  | .setTemperatureZone1 => 32
  | .setTemperatureZone2 => 64
  | .setHeatFlowTemperatureZone1 => 128
  | .setHeatFlowTemperatureZone2 => 256
  | .setCoolFlowTemperatureZone1 => 512
  | .setCoolFlowTemperatureZone2 => 1024

/-- Bit position of a heat-pump field constant. -/
def atwFlagIdx : AtwField → Nat
  | .power => 0
  | .forcedHotWaterMode => 1
  | .operationModeZone1 => 2
  | .operationModeZone2 => 3
  | .setTankWaterTemperature => 4
  | .setTemperatureZone1 => 5
  | .setTemperatureZone2 => 6
  | .setHeatFlowTemperatureZone1 => 7
  | .setHeatFlowTemperatureZone2 => 8
  | .setCoolFlowTemperatureZone1 => 9
  | .setCoolFlowTemperatureZone2 => 10

/-- The mask accumulated by the eleven `setHeatPumpDevice` blocks, as a
function of which fields are present, in source order. -/
def atwFlagsB (b1 b2 b3 b4 b5 b6 b7 b8 b9 b10 b11 : Bool) : Nat :=
  (if b1 then 1 else 0) + (if b2 then 2 else 0) + (if b3 then 4 else 0)
    + (if b4 then 8 else 0) + (if b5 then 16 else 0) + (if b6 then 32 else 0)
    + (if b7 then 64 else 0) + (if b8 then 128 else 0) + (if b9 then 256 else 0)
    + (if b10 then 512 else 0) + (if b11 then 1024 else 0)

/-- Field presence as a function of the eleven presence booleans. -/
def atwSuppliedB (b1 b2 b3 b4 b5 b6 b7 b8 b9 b10 b11 : Bool) : AtwField → Bool
  | .power => b1
  | .forcedHotWaterMode => b2
  | .operationModeZone1 => b3
  | .operationModeZone2 => b4
  | .setTankWaterTemperature => b5
  | .setTemperatureZone1 => b6
  | .setTemperatureZone2 => b7
  | .setHeatFlowTemperatureZone1 => b8
  | .setHeatFlowTemperatureZone2 => b9
  | .setCoolFlowTemperatureZone1 => b10
  | .setCoolFlowTemperatureZone2 => b11

/-- Number of present fields. -/
def atwSuppliedCountB (b1 b2 b3 b4 b5 b6 b7 b8 b9 b10 b11 : Bool) : Nat :=
  (if b1 then 1 else 0) + (if b2 then 1 else 0) + (if b3 then 1 else 0)
    + (if b4 then 1 else 0) + (if b5 then 1 else 0) + (if b6 then 1 else 0)
    + (if b7 then 1 else 0) + (if b8 then 1 else 0) + (if b9 then 1 else 0)
    + (if b10 then 1 else 0) + (if b11 then 1 else 0)

/-- Whether a `setHeatPumpDevice` field is present in the params
object. -/
def atwSupplied (params : AtwParams) : AtwField → Bool :=
  atwSuppliedB params.power.isSome params.forcedHotWaterMode.isSome
    params.operationModeZone1.isSome params.operationModeZone2.isSome
    params.setTankWaterTemperature.isSome params.setTemperatureZone1.isSome
    params.setTemperatureZone2.isSome params.setHeatFlowTemperatureZone1.isSome
    params.setHeatFlowTemperatureZone2.isSome params.setCoolFlowTemperatureZone1.isSome
    params.setCoolFlowTemperatureZone2.isSome

/-- Number of `setHeatPumpDevice` fields present in the params
object. -/
def atwSuppliedCount (params : AtwParams) : Nat :=
  atwSuppliedCountB params.power.isSome params.forcedHotWaterMode.isSome
    params.operationModeZone1.isSome params.operationModeZone2.isSome
    params.setTankWaterTemperature.isSome params.setTemperatureZone1.isSome
    params.setTemperatureZone2.isSome params.setHeatFlowTemperatureZone1.isSome
    params.setHeatFlowTemperatureZone2.isSome params.setCoolFlowTemperatureZone1.isSome
    params.setCoolFlowTemperatureZone2.isSome

theorem atwStepPower_flags (params : AtwParams) (p : AtwPayload) :
    (atwStepPower params p).EffectiveFlags
      = p.EffectiveFlags + (if params.power.isSome then 1 else 0) := by
  cases hp : params.power <;> simp [atwStepPower, hp]

theorem atwStepForcedHotWater_flags (params : AtwParams) (p : AtwPayload) :
    (atwStepForcedHotWater params p).EffectiveFlags
      = p.EffectiveFlags + (if params.forcedHotWaterMode.isSome then 2 else 0) := by
  cases hp : params.forcedHotWaterMode <;> simp [atwStepForcedHotWater, hp]

theorem atwStepOpModeZone1_flags (params : AtwParams) (p : AtwPayload) :
    (atwStepOpModeZone1 params p).EffectiveFlags
      = p.EffectiveFlags + (if params.operationModeZone1.isSome then 4 else 0) := by
  cases hp : params.operationModeZone1 <;> simp [atwStepOpModeZone1, hp]

theorem atwStepOpModeZone2_flags (hz : JsVal) (params : AtwParams) (p q : AtwPayload)
    (h : atwStepOpModeZone2 hz params p = .ok q) :
    q.EffectiveFlags = p.EffectiveFlags + (if params.operationModeZone2.isSome then 8 else 0) := by
  cases hp : params.operationModeZone2 with
  | none =>
    simp only [atwStepOpModeZone2, hp, Except.ok.injEq] at h
    subst h
    simp
  | some v =>
    simp only [atwStepOpModeZone2, hp] at h
    by_cases ht : hz.truthy
    · simp only [ht, if_true, Except.ok.injEq] at h
      subst h
      simp
    · simp [ht] at h

theorem atwStepTank_flags (params : AtwParams) (p : AtwPayload) :
    (atwStepTank params p).EffectiveFlags
      = p.EffectiveFlags + (if params.setTankWaterTemperature.isSome then 16 else 0) := by
  cases hp : params.setTankWaterTemperature <;> simp [atwStepTank, hp]

theorem atwStepTempZone1_flags (params : AtwParams) (p : AtwPayload) :
    (atwStepTempZone1 params p).EffectiveFlags
      = p.EffectiveFlags + (if params.setTemperatureZone1.isSome then 32 else 0) := by
  cases hp : params.setTemperatureZone1 <;> simp [atwStepTempZone1, hp]

theorem atwStepTempZone2_flags (hz : JsVal) (params : AtwParams) (p q : AtwPayload)
    (h : atwStepTempZone2 hz params p = .ok q) :
    q.EffectiveFlags = p.EffectiveFlags + (if params.setTemperatureZone2.isSome then 64 else 0) := by
  cases hp : params.setTemperatureZone2 with
  | none =>
    simp only [atwStepTempZone2, hp, Except.ok.injEq] at h
    subst h
    simp
  | some v =>
    simp only [atwStepTempZone2, hp] at h
    by_cases ht : hz.truthy
    · simp only [ht, if_true, Except.ok.injEq] at h
      subst h
      simp
    · simp [ht] at h

theorem atwStepHeatFlowZone1_flags (params : AtwParams) (p : AtwPayload) :
    (atwStepHeatFlowZone1 params p).EffectiveFlags
      = p.EffectiveFlags + (if params.setHeatFlowTemperatureZone1.isSome then 128 else 0) := by
  cases hp : params.setHeatFlowTemperatureZone1 <;> simp [atwStepHeatFlowZone1, hp]

theorem atwStepHeatFlowZone2_flags (hz : JsVal) (params : AtwParams) (p q : AtwPayload)
    (h : atwStepHeatFlowZone2 hz params p = .ok q) :
    q.EffectiveFlags
      = p.EffectiveFlags + (if params.setHeatFlowTemperatureZone2.isSome then 256 else 0) := by
  cases hp : params.setHeatFlowTemperatureZone2 with
  | none =>
    simp only [atwStepHeatFlowZone2, hp, Except.ok.injEq] at h
    subst h
    simp
  | some v =>
    simp only [atwStepHeatFlowZone2, hp] at h
    by_cases ht : hz.truthy
    · simp only [ht, if_true, Except.ok.injEq] at h
      subst h
      simp
    · simp [ht] at h

theorem atwStepCoolFlowZone1_flags (params : AtwParams) (p : AtwPayload) :
    (atwStepCoolFlowZone1 params p).EffectiveFlags
      = p.EffectiveFlags + (if params.setCoolFlowTemperatureZone1.isSome then 512 else 0) := by
  cases hp : params.setCoolFlowTemperatureZone1 <;> simp [atwStepCoolFlowZone1, hp]

theorem atwStepCoolFlowZone2_flags (hz : JsVal) (params : AtwParams) (p q : AtwPayload)
    (h : atwStepCoolFlowZone2 hz params p = .ok q) :
    q.EffectiveFlags
      = p.EffectiveFlags + (if params.setCoolFlowTemperatureZone2.isSome then 1024 else 0) := by
  cases hp : params.setCoolFlowTemperatureZone2 with
  | none =>
    simp only [atwStepCoolFlowZone2, hp, Except.ok.injEq] at h
    subst h
    simp
  | some v =>
    simp only [atwStepCoolFlowZone2, hp] at h
    by_cases ht : hz.truthy
    · simp only [ht, if_true, Except.ok.injEq] at h
      subst h
      simp
    · simp [ht] at h

/-- The bitmask accumulated by the eleven blocks over an arbitrary
seeded payload: the seed's mask plus the constants of the supplied
fields, in source order. -/
theorem atwApplyParams_flags (hz : JsVal) (params : AtwParams) (p0 : AtwPayload)
    (payload : AtwPayload) (h : atwApplyParams hz params p0 = .ok payload) :
    payload.EffectiveFlags
      = p0.EffectiveFlags
        + atwFlagsB params.power.isSome params.forcedHotWaterMode.isSome
            params.operationModeZone1.isSome params.operationModeZone2.isSome
            params.setTankWaterTemperature.isSome params.setTemperatureZone1.isSome
            params.setTemperatureZone2.isSome params.setHeatFlowTemperatureZone1.isSome
            params.setHeatFlowTemperatureZone2.isSome params.setCoolFlowTemperatureZone1.isSome
            params.setCoolFlowTemperatureZone2.isSome := by
  simp only [atwApplyParams] at h
  split at h
  · exact Except.noConfusion h
  · rename_i p4 h4
    split at h
    · exact Except.noConfusion h
    · rename_i p7 h7
      split at h
      · exact Except.noConfusion h
      · rename_i p9 h9
        split at h
        · exact Except.noConfusion h
        · rename_i p11 h11
          split at h
          · exact Except.noConfusion h
          · simp only [Except.ok.injEq] at h
            subst h
            have e4 := atwStepOpModeZone2_flags _ _ _ _ h4
            have e7 := atwStepTempZone2_flags _ _ _ _ h7
            have e9 := atwStepHeatFlowZone2_flags _ _ _ _ h9
            have e11 := atwStepCoolFlowZone2_flags _ _ _ _ h11
            simp only [atwStepOpModeZone1_flags, atwStepForcedHotWater_flags,
              atwStepPower_flags] at e4
            simp only [atwStepTempZone1_flags, atwStepTank_flags] at e7
            simp only [atwStepHeatFlowZone1_flags] at e9
            simp only [atwStepCoolFlowZone1_flags] at e11
            rw [e11, e9, e7, e4]
            simp only [atwFlagsB]
            ring

/-- The bitmask of an accepted `setHeatPumpDevice` payload is exactly
the sum of the constants of the supplied fields, in source order. -/
theorem buildAtwPayload_flags (deviceId : Int) (cur : ParsedDevice) (params : AtwParams)
    (payload : AtwPayload) (h : buildAtwPayload deviceId cur params = .ok payload) :
    payload.EffectiveFlags
      = atwFlagsB params.power.isSome params.forcedHotWaterMode.isSome
          params.operationModeZone1.isSome params.operationModeZone2.isSome
          params.setTankWaterTemperature.isSome params.setTemperatureZone1.isSome
          params.setTemperatureZone2.isSome params.setHeatFlowTemperatureZone1.isSome
          params.setHeatFlowTemperatureZone2.isSome params.setCoolFlowTemperatureZone1.isSome
          params.setCoolFlowTemperatureZone2.isSome := by
  have h2 := atwApplyParams_flags cur.hasZone2 params _ payload h
  rw [h2]
  simp

/-- The number whose binary digits, low bit first, are the given list. -/
def maskOfBits : List Bool → Nat
  | [] => 0
  | b :: bs => (if b then 1 else 0) + 2 * maskOfBits bs

/-- How many of the given booleans are true. -/
def countTrue : List Bool → Nat
  | [] => 0
  | b :: bs => (if b then 1 else 0) + countTrue bs

theorem ifConstMulToNat (c : Nat) (b : Bool) : (if b then c else 0) = c * b.toNat := by
  cases b <;> simp

theorem popBitsGo_zero : ∀ n, popBitsGo n 0 = 0 := by
  intro n
  induction n with
  | zero => rfl
  | succ n ih => simp [popBitsGo, ih]

theorem maskOfBits_lt : ∀ bs : List Bool, maskOfBits bs < 2 ^ bs.length := by
  intro bs
  induction bs with
  | nil => simp [maskOfBits]
  | cons b bs ih =>
    simp only [maskOfBits, List.length_cons]
    have hx : (if b then 1 else 0 : Nat) ≤ 1 := by cases b <;> simp
    have h2 : (2 : Nat) ^ (bs.length + 1) = 2 * 2 ^ bs.length := by
      rw [pow_succ]
      ring
    omega

theorem popBitsGo_maskOfBits : ∀ (bs : List Bool) (n : Nat), bs.length ≤ n →
    popBitsGo n (maskOfBits bs) = countTrue bs := by
  intro bs
  induction bs with
  | nil => intro n _; simp [maskOfBits, countTrue, popBitsGo_zero]
  | cons b bs ih =>
    intro n hn
    cases n with
    | zero => simp at hn
    | succ n =>
      simp only [maskOfBits, countTrue, popBitsGo]
      rw [Nat.add_mul_mod_self_left, Nat.add_mul_div_left _ _ (by norm_num : (0 : Nat) < 2)]
      have hmod : (if b then 1 else 0) % 2 = (if b then 1 else 0 : Nat) := by cases b <;> rfl
      have hdiv : (if b then 1 else 0 : Nat) / 2 = 0 := by cases b <;> rfl
      have hlen : bs.length ≤ n := by
        simp only [List.length_cons] at hn
        omega
      rw [hmod, hdiv, Nat.zero_add, ih n hlen]

theorem maskOfBits_bitIsSet : ∀ (bs : List Bool) (k : Nat),
    bitIsSet (maskOfBits bs) k = bs.getD k false := by
  intro bs
  induction bs with
  | nil => intro k; simp [maskOfBits, bitIsSet]
  | cons b bs ih =>
    intro k
    cases k with
    | zero =>
      simp only [bitIsSet, maskOfBits, pow_zero, Nat.div_one]
      rw [Nat.add_mul_mod_self_left]
      cases b <;> rfl
    | succ k =>
      simp only [bitIsSet, maskOfBits] at ih ⊢
      have h2 : (2 : Nat) ^ (k + 1) = 2 * 2 ^ k := by
        rw [pow_succ]
        ring
      rw [h2, ← Nat.div_div_eq_div_mul,
        Nat.add_mul_div_left _ _ (by norm_num : (0 : Nat) < 2)]
      have hdiv : (if b then 1 else 0 : Nat) / 2 = 0 := by cases b <;> rfl
      rw [hdiv, Nat.zero_add, ih k]
      simp [List.getD]

theorem atwSuppliedB_eq_getD (b1 b2 b3 b4 b5 b6 b7 b8 b9 b10 b11 : Bool) (f : AtwField) :
    atwSuppliedB b1 b2 b3 b4 b5 b6 b7 b8 b9 b10 b11 f
      = [b1, b2, b3, b4, b5, b6, b7, b8, b9, b10, b11].getD (atwFlagIdx f) false := by
  cases f <;> rfl

theorem atwFlagIdx_surj : ∀ k, k < 11 → ∃ f : AtwField, atwFlagIdx f = k := by decide

/-- Bit-level facts about the heat-pump mask: the eleven constants are
the consecutive bits 0..10, so the mask is the binary number whose
digits are the presence booleans. -/
theorem atwFlagsB_spec (b1 b2 b3 b4 b5 b6 b7 b8 b9 b10 b11 : Bool) :
    popBits (atwFlagsB b1 b2 b3 b4 b5 b6 b7 b8 b9 b10 b11)
        = atwSuppliedCountB b1 b2 b3 b4 b5 b6 b7 b8 b9 b10 b11
    ∧ (∀ f : AtwField, bitIsSet (atwFlagsB b1 b2 b3 b4 b5 b6 b7 b8 b9 b10 b11) (atwFlagIdx f)
        = atwSuppliedB b1 b2 b3 b4 b5 b6 b7 b8 b9 b10 b11 f)
    ∧ (∀ k : Nat, k < 11 →
        bitIsSet (atwFlagsB b1 b2 b3 b4 b5 b6 b7 b8 b9 b10 b11) k = true →
        ∃ f : AtwField, atwFlagIdx f = k
          ∧ atwSuppliedB b1 b2 b3 b4 b5 b6 b7 b8 b9 b10 b11 f = true)
    ∧ atwFlagsB b1 b2 b3 b4 b5 b6 b7 b8 b9 b10 b11 < 2048 := by
  have hb : atwFlagsB b1 b2 b3 b4 b5 b6 b7 b8 b9 b10 b11
      = maskOfBits [b1, b2, b3, b4, b5, b6, b7, b8, b9, b10, b11] := by
    simp only [atwFlagsB, maskOfBits, ifConstMulToNat]
    ring
  have hc : atwSuppliedCountB b1 b2 b3 b4 b5 b6 b7 b8 b9 b10 b11
      = countTrue [b1, b2, b3, b4, b5, b6, b7, b8, b9, b10, b11] := by
    simp only [atwSuppliedCountB, countTrue, ifConstMulToNat]
    ring
  refine ⟨?_, ?_, ?_, ?_⟩
  · rw [hb, hc]
    exact popBitsGo_maskOfBits _ 11 (by simp)
  · intro f
    rw [hb, maskOfBits_bitIsSet, atwSuppliedB_eq_getD]
  · intro k hk hset
    obtain ⟨f, hf⟩ := atwFlagIdx_surj k hk
    refine ⟨f, hf, ?_⟩
    rw [atwSuppliedB_eq_getD, hf]
    rw [hb, maskOfBits_bitIsSet] at hset
    exact hset
  · rw [hb]
    have h := maskOfBits_lt [b1, b2, b3, b4, b5, b6, b7, b8, b9, b10, b11]
    simpa using h

/-- C1: for every partial update accepted by `setDevice` (air-conditioner
field set) and `setHeatPumpDevice` (heat-pump field set), the
`EffectiveFlags` bitmask of the submitted payload has exactly one set
bit per caller-supplied field — the field's fixed bit constant, a power
of two — its set bits are exactly the fields present in the caller's
params object, and the popcount of the mask equals the number of
supplied fields, even though the code accumulates the mask by
addition. -/
theorem effectiveFlags_popcount_eq_supplied :
    (∀ (deviceId : Int) (cur : ParsedDevice) (params : AtaParams) (payload : AtaPayload),
      buildAtaPayload deviceId cur params = .ok payload →
      (∀ f : AtaField, ataFlagConst f = 2 ^ ataFlagIdx f)
      ∧ popBits payload.EffectiveFlags = ataSuppliedCount params
      ∧ (∀ f : AtaField, bitIsSet payload.EffectiveFlags (ataFlagIdx f) = ataSupplied params f)
      ∧ (∀ k : Nat, bitIsSet payload.EffectiveFlags k = true →
          ∃ f : AtaField, ataFlagIdx f = k ∧ ataSupplied params f = true))
    ∧ (∀ (deviceId : Int) (cur : ParsedDevice) (params : AtwParams) (payload : AtwPayload),
      buildAtwPayload deviceId cur params = .ok payload →
      (∀ f : AtwField, atwFlagConst f = 2 ^ atwFlagIdx f)
      ∧ popBits payload.EffectiveFlags = atwSuppliedCount params
      ∧ (∀ f : AtwField, bitIsSet payload.EffectiveFlags (atwFlagIdx f) = atwSupplied params f)
      ∧ (∀ k : Nat, bitIsSet payload.EffectiveFlags k = true →
          ∃ f : AtwField, atwFlagIdx f = k ∧ atwSupplied params f = true)) := by
  constructor
  · intro deviceId cur params payload h
    have hf := buildAtaPayload_flags deviceId cur params payload h
    obtain ⟨h1, h2, h3, h4⟩ := ataFlagsB_spec params.power.isSome params.temperature.isSome
      params.fanSpeed.isSome params.mode.isSome params.vaneHorizontal.isSome
      params.vaneVertical.isSome
    refine ⟨by decide, ?_, ?_, ?_⟩
    · rw [hf]; exact h1
    · intro f; rw [hf]; exact h2 f
    · intro k hk
      rw [hf] at hk
      have hklt : k < 11 := by
        by_contra hge
        rw [bitIsSet_high_false _ _ h4 (Nat.le_of_not_lt hge)] at hk
        exact Bool.noConfusion hk
      exact h3 k hklt hk
  · intro deviceId cur params payload h
    have hf := buildAtwPayload_flags deviceId cur params payload h
    obtain ⟨h1, h2, h3, h4⟩ := atwFlagsB_spec params.power.isSome
      params.forcedHotWaterMode.isSome params.operationModeZone1.isSome
      params.operationModeZone2.isSome params.setTankWaterTemperature.isSome
      params.setTemperatureZone1.isSome params.setTemperatureZone2.isSome
      params.setHeatFlowTemperatureZone1.isSome params.setHeatFlowTemperatureZone2.isSome
      params.setCoolFlowTemperatureZone1.isSome params.setCoolFlowTemperatureZone2.isSome
    refine ⟨by decide, ?_, ?_, ?_⟩
    · rw [hf]; exact h1
    · intro f; rw [hf]; exact h2 f
    · intro k hk
      rw [hf] at hk
      have hklt : k < 11 := by
        by_contra hge
        rw [bitIsSet_high_false _ _ h4 (Nat.le_of_not_lt hge)] at hk
        exact Bool.noConfusion hk
      exact h3 k hklt hk

/-- A concrete raw device record used by the witnesses. -/
def wRaw : RawDevice :=
  { Power := .bool true, SetTemperature := .num 22, SetFanSpeed := .num 2,
    FanSpeed := .num 2, OperationMode := .num 1, VaneHorizontalDirection := .num 0,
    VaneVerticalDirection := .num 0, HasZone2 := .bool true, DeviceType := .num 0 }

/-- Concrete `setDevice` params supplying two fields. -/
def wAtaParams : AtaParams := { power := some (.bool true), mode := some (.str "heat") }

/-- The payload `setDevice` builds for `wAtaParams` on `wRaw`. -/
def wAtaPayload : AtaPayload :=
  (buildAtaPayload 7 (parseDeviceData wRaw) wAtaParams).toOption.getD
    { DeviceID := 0, DeviceType := 0, Power := .undefined, SetTemperature := .undefined,
      SetFanSpeed := .undefined, OperationMode := .undefined, VaneHorizontal := .undefined,
      VaneVertical := .undefined, EffectiveFlags := 0 }

/-- Concrete `setHeatPumpDevice` params supplying two fields. -/
def wAtwParams : AtwParams :=
  { power := some (.bool true), setTemperatureZone1 := some (.num 21) }

/-- The payload `setHeatPumpDevice` builds for `wAtwParams` on `wRaw`. -/
def wAtwPayload : AtwPayload :=
  (buildAtwPayload 7 (parseDeviceData wRaw) wAtwParams).toOption.getD
    { DeviceID := 0, DeviceType := 1, Power := .undefined, ForcedHotWaterMode := .undefined,
      OperationModeZone1 := .undefined, OperationModeZone2 := .undefined,
      SetTankWaterTemperature := .undefined, SetTemperatureZone1 := .undefined,
      SetTemperatureZone2 := .undefined, SetHeatFlowTemperatureZone1 := .undefined,
      SetHeatFlowTemperatureZone2 := .undefined, SetCoolFlowTemperatureZone1 := .undefined,
      SetCoolFlowTemperatureZone2 := .undefined, EffectiveFlags := 0 }

/-- Witness for C1 at concrete inputs: both encoders accept the params
and the popcount equality holds on the resulting masks. -/
theorem effectiveFlags_popcount_eq_supplied_witness :
    buildAtaPayload 7 (parseDeviceData wRaw) wAtaParams = .ok wAtaPayload
    ∧ popBits wAtaPayload.EffectiveFlags = ataSuppliedCount wAtaParams
    ∧ buildAtwPayload 7 (parseDeviceData wRaw) wAtwParams = .ok wAtwPayload
    ∧ popBits wAtwPayload.EffectiveFlags = atwSuppliedCount wAtwParams := by
  have hata : buildAtaPayload 7 (parseDeviceData wRaw) wAtaParams = .ok wAtaPayload := by decide
  have hatw : buildAtwPayload 7 (parseDeviceData wRaw) wAtwParams = .ok wAtwPayload := by decide
  exact ⟨hata, (effectiveFlags_popcount_eq_supplied.1 7 _ wAtaParams _ hata).2.1, hatw,
    (effectiveFlags_popcount_eq_supplied.2 7 _ wAtwParams _ hatw).2.1⟩

/-- A successful attempt passes through the retry wrapper unchanged. -/
theorem retryRequest_of_ok (fn : ClientState → Run α) (n : Nat) (s : ClientState)
    (t : List Ev) (d : List Nat) (s1 : ClientState) (v : α)
    (h : fn s = (t, d, s1, .ok v)) : retryRequest fn n s = (t, d, s1, .ok v) := by
  unfold retryRequest retryReqGo
  rw [h]

/-- C3: a unit of work failing every attempt with a transient error is
attempted exactly 3 times with backoffs of 1000 ms and 2000 ms
(`2 ^ n` seconds for retry `n`) before the last error is propagated
unchanged, while a non-transient error is propagated after a single
attempt with no backoff; transience is exactly: no response at all, or
status 401, 429 or 5xx. -/
theorem retryRequest_three_attempts_then_propagates :
    (∀ (e : JsError) (fn : ClientState → Run Unit) (s : ClientState),
      (∀ s1, fn s1 = ([Ev.call], [], s1, .error e)) →
      shouldRetryError e = true →
      (retryRequest fn 2 s).1 = [Ev.call, Ev.call, Ev.call]
        ∧ (retryRequest fn 2 s).2.1 = [1000, 2000]
        ∧ (retryRequest fn 2 s).2.2.2 = .error e)
    ∧ (∀ (e : JsError) (fn : ClientState → Run Unit) (s : ClientState),
      (∀ s1, fn s1 = ([Ev.call], [], s1, .error e)) →
      shouldRetryError e = false →
      retryRequest fn 2 s = ([Ev.call], [], s, .error e))
    ∧ (∀ (m : String) (status : Nat),
      shouldRetryError { message := m, response := some status }
        = (status == 401 || status == 429 || (500 ≤ status && status < 600)))
    ∧ (∀ (m : String), shouldRetryError { message := m, response := none } = true) := by
  refine ⟨?_, ?_, fun m status => rfl, fun m => rfl⟩
  · intro e fn s hfn hr
    refine ⟨?_, ?_, ?_⟩ <;> simp [retryRequest, retryReqGo, hfn, hr]
  · intro e fn s hfn hr
    simp [retryRequest, retryReqGo, hfn, hr]

/-- Witness for C3: a permanent HTTP 500 runs 3 attempts with backoffs
1000 ms and 2000 ms and surfaces, while a 404 surfaces after one
attempt. -/
theorem retryRequest_three_attempts_then_propagates_witness :
    ((retryRequest ((fun s1 => ([Ev.call], [], s1,
        .error { message := "Internal Server Error", response := some 500 })) :
          ClientState → Run Unit) 2
        { contextKey := none }).1 = [Ev.call, Ev.call, Ev.call]
      ∧ (retryRequest ((fun s1 => ([Ev.call], [], s1,
        .error { message := "Internal Server Error", response := some 500 })) :
          ClientState → Run Unit) 2
        { contextKey := none }).2.1 = [1000, 2000]
      ∧ (retryRequest ((fun s1 => ([Ev.call], [], s1,
        .error { message := "Internal Server Error", response := some 500 })) :
          ClientState → Run Unit) 2
        { contextKey := none }).2.2.2
          = .error { message := "Internal Server Error", response := some 500 })
    ∧ retryRequest ((fun s1 => ([Ev.call], [], s1,
        .error { message := "Not Found", response := some 404 })) :
          ClientState → Run Unit) 2 { contextKey := none }
      = ([Ev.call], [], { contextKey := none },
         .error { message := "Not Found", response := some 404 }) :=
  ⟨retryRequest_three_attempts_then_propagates.1
      { message := "Internal Server Error", response := some 500 } _ _
      (fun _ => rfl) (by decide),
   retryRequest_three_attempts_then_propagates.2.1
      { message := "Not Found", response := some 404 } _ _
      (fun _ => rfl) (by decide)⟩

/-- A unit of work of the shape every authenticated operation has:
ensure a session, then issue one authenticated call whose outcome
depends on the token presented. -/
def authedCallWork (env : Env) (call : Option String → Except JsError Nat)
    (s : ClientState) : Run Nat :=
  match ensureAuthRun env s with
  | (t, d, s1) =>
    match call s1.contextKey with
    | .ok v => (t ++ [Ev.call], d, s1, .ok v)
    | .error e => (t ++ [Ev.call], d, s1, .error e)

/-- C4: an authenticated operation holding a token that fails once with
HTTP 401 and would succeed with a fresh token is retried exactly once:
the wrapper clears the held token, the retried attempt performs exactly
one re-login (because no token is held), and the operation succeeds —
the whole run is attempt, login, retried attempt, with the single
1000 ms backoff. -/
theorem retry401_single_relogin_then_success
    (env : Env) (call : Option String → Except JsError Nat) (s : ClientState)
    (k0 : String) (v : Nat) (e : JsError)
    (hs : s.contextKey = some k0) (hk0 : k0 ≠ "")
    (hfail : call (some k0) = .error e) (h401 : e.response = some 401)
    (hok : call (some env.loginKey) = .ok v) :
    retryRequest (authedCallWork env call) 2 s
      = ([Ev.call, Ev.login, Ev.call], [1000], { contextKey := some env.loginKey }, .ok v) := by
  have hk0f : (k0 == "") = false := by
    simp [hk0]
  have hsr : shouldRetryError e = true := by
    simp [shouldRetryError, h401]
  simp [retryRequest, retryReqGo, authedCallWork, ensureAuthRun, loginRun, loginAttempt,
    tokenFalsy, hs, hk0f, hfail, h401, hok, hsr]

/-- Witness for C4: a concrete stale-token client against a service
that rejects the stale token with 401 and accepts the fresh one. -/
theorem retry401_single_relogin_then_success_witness :
    retryRequest (authedCallWork
        { loginKey := "fresh", tree := [], deviceGet := fun _ _ => {}, energyData := {} }
        (fun k => if k = some "fresh" then .ok 42
          else .error { message := "Unauthorized", response := some 401 })) 2
      { contextKey := some "stale" }
      = ([Ev.call, Ev.login, Ev.call], [1000], { contextKey := some "fresh" }, .ok 42) :=
  retry401_single_relogin_then_success
    { loginKey := "fresh", tree := [], deviceGet := fun _ _ => {}, energyData := {} }
    (fun k => if k = some "fresh" then .ok 42
      else .error { message := "Unauthorized", response := some 401 })
    { contextKey := some "stale" } "stale" 42
    { message := "Unauthorized", response := some 401 }
    rfl (by decide) (by decide) rfl (by decide)

theorem getDeviceAttempt_buildingId_zero (env : Env) (deviceId : Int) (s : ClientState) :
    getDeviceAttempt env deviceId (some 0) s = getDeviceAttempt env deviceId none s := by
  rcases h : ensureAuthRun env s with ⟨t1, d1, s1⟩
  simp [getDeviceAttempt, h, numFalsy]

theorem getDeviceRun_buildingId_zero (env : Env) (deviceId : Int) (s : ClientState) :
    getDeviceRun env deviceId (some 0) s = getDeviceRun env deviceId none s := by
  unfold getDeviceRun
  rw [funext fun s1 => getDeviceAttempt_buildingId_zero env deviceId s1]

theorem setDeviceAttempt_buildingId_zero (env : Env) (deviceId : Int) (params : AtaParams)
    (s : ClientState) :
    setDeviceAttempt env deviceId params (some 0) s
      = setDeviceAttempt env deviceId params none s := by
  rcases h : ensureAuthRun env s with ⟨t1, d1, s1⟩
  simp [setDeviceAttempt, h, getDeviceRun_buildingId_zero]

theorem setHeatPumpDeviceAttempt_buildingId_zero (env : Env) (deviceId : Int)
    (params : AtwParams) (s : ClientState) :
    setHeatPumpDeviceAttempt env deviceId params (some 0) s
      = setHeatPumpDeviceAttempt env deviceId params none s := by
  rcases h : ensureAuthRun env s with ⟨t1, d1, s1⟩
  simp [setHeatPumpDeviceAttempt, h, getDeviceRun_buildingId_zero]

theorem getEnergyReportAttempt_buildingId_zero (env : Env) (deviceId : Int)
    (fromDate toDate : String) (s : ClientState) :
    getEnergyReportAttempt env deviceId fromDate toDate (some 0) s
      = getEnergyReportAttempt env deviceId fromDate toDate none s := by
  rcases h : ensureAuthRun env s with ⟨t1, d1, s1⟩
  simp [getEnergyReportAttempt, h, numFalsy]

/-- C9: supplying `buildingId = 0` to `getDevice`, `setDevice`,
`setHeatPumpDevice` or `getEnergyReport` behaves exactly like not
supplying a building id at all — the presence check is JS falsiness
(`!buildingId`), so 0 is re-resolved from the device list and the
caller-supplied 0 is never used. -/
theorem buildingId_zero_treated_as_absent :
    ∀ (env : Env) (s : ClientState) (deviceId : Int) (ataParams : AtaParams)
      (atwParams : AtwParams) (fromDate toDate : String),
      getDeviceRun env deviceId (some 0) s = getDeviceRun env deviceId none s
      ∧ setDeviceRun env deviceId ataParams (some 0) s
          = setDeviceRun env deviceId ataParams none s
      ∧ setHeatPumpDeviceRun env deviceId atwParams (some 0) s
          = setHeatPumpDeviceRun env deviceId atwParams none s
      ∧ getEnergyReportRun env deviceId fromDate toDate (some 0) s
          = getEnergyReportRun env deviceId fromDate toDate none s := by
  intro env s deviceId ataParams atwParams fromDate toDate
  refine ⟨getDeviceRun_buildingId_zero env deviceId s, ?_, ?_, ?_⟩
  · unfold setDeviceRun
    rw [funext fun s1 => setDeviceAttempt_buildingId_zero env deviceId ataParams s1]
  · unfold setHeatPumpDeviceRun
    rw [funext fun s1 => setHeatPumpDeviceAttempt_buildingId_zero env deviceId atwParams s1]
  · unfold getEnergyReportRun
    rw [funext fun s1 => getEnergyReportAttempt_buildingId_zero env deviceId fromDate toDate s1]

/-- Whether an event is the device-detail GET. -/
def isDeviceGetEv : Ev → Bool
  | .deviceGet _ _ => true
  | _ => false

/-- Whether an event is a command POST (`SetAta` or `SetAtw`). -/
def isPostEv : Ev → Bool
  | .setAta _ => true
  | .setAtw _ => true
  | _ => false

/-- Whether an event is the energy-report POST. -/
def isEnergyEv : Ev → Bool
  | .energyReport _ _ _ => true
  | _ => false

/-- Closed form of `_ensureAuthenticated` in the always-successful
environment: one login exchange when no token is held, a no-op
otherwise. -/
theorem ensureAuthRun_eq (env : Env) (s : ClientState) :
    ensureAuthRun env s
      = if tokenFalsy s.contextKey
          then ([Ev.login], [], ({ contextKey := some env.loginKey } : ClientState))
          else ([], [], s) := by
  by_cases h : tokenFalsy s.contextKey <;>
    simp [ensureAuthRun, loginRun, retryRequest, retryReqGo, loginAttempt, h]

/-- Closed form of `getDevices` in the always-successful environment. -/
theorem getDevicesRun_eq (env : Env) (s : ClientState) :
    getDevicesRun env s
      = ((if tokenFalsy s.contextKey then [Ev.login] else []) ++ [Ev.listDevices], [],
         (if tokenFalsy s.contextKey then { contextKey := some env.loginKey } else s),
         .ok (flattenDevices env.tree)) := by
  apply retryRequest_of_ok
  by_cases h : tokenFalsy s.contextKey <;> simp [getDevicesAttempt, ensureAuthRun_eq, h]

/-- If every attempt of a unit of work fails with one fixed
no-network-response error and every event it traces satisfies `P`, then
the whole wrapped run fails with that error and every traced event
satisfies `P` (the wrapper retries such an error as transient, so up to
3 attempts accumulate). -/
theorem retryReqGo_error_lift (fn : ClientState → Run α) (e : JsError) (P : Ev → Bool)
    (hfn : ∀ s, (fn s).2.2.2 = .error e ∧ (fn s).1.all P = true) :
    ∀ (fuel retries : Nat) (s : ClientState),
      (retryReqGo fn 2 fuel retries s).2.2.2 = .error e
        ∧ (retryReqGo fn 2 fuel retries s).1.all P = true := by
  intro fuel
  induction fuel with
  | zero =>
    intro retries s
    obtain ⟨hr, hp⟩ := hfn s
    rcases hf : fn s with ⟨t, d, s1, r⟩
    rw [hf] at hr hp
    simp only at hr hp
    subst hr
    constructor <;> (unfold retryReqGo; rw [hf]; simp [hp])
  | succ fuel ih =>
    intro retries s
    obtain ⟨hr, hp⟩ := hfn s
    rcases hf : fn s with ⟨t, d, s1, r⟩
    rw [hf] at hr hp
    simp only at hr hp
    subst hr
    by_cases hcond : (shouldRetryError e && decide (retries < 2)) = true
    · obtain ⟨ihr, ihp⟩ := ih (retries + 1)
        (if e.response = some 401 then { s1 with contextKey := none } else s1)
      rcases hrec : retryReqGo fn 2 fuel (retries + 1)
          (if e.response = some 401 then { s1 with contextKey := none } else s1)
        with ⟨t2, d2, s3, r2⟩
      rw [hrec] at ihr ihp
      simp only at ihr ihp
      subst ihr
      constructor <;> (unfold retryReqGo; rw [hf]; simp [hcond, hrec, hp, ihp])
    · constructor <;> (unfold retryReqGo; rw [hf]; simp [hcond, hp])

/-- The retry-level error lift at the public entry point. -/
theorem retryRequest_error_lift (fn : ClientState → Run α) (e : JsError) (P : Ev → Bool)
    (hfn : ∀ s, (fn s).2.2.2 = .error e ∧ (fn s).1.all P = true) (s : ClientState) :
    (retryRequest fn 2 s).2.2.2 = .error e ∧ (retryRequest fn 2 s).1.all P = true :=
  retryReqGo_error_lift fn e P hfn 2 0 s

/-- A result that is a success passes through the retry wrapper. -/
theorem retryRequest_ok_res (fn : ClientState → Run α) (s : ClientState) (v : α)
    (h : (fn s).2.2.2 = .ok v) : (retryRequest fn 2 s).2.2.2 = .ok v := by
  rcases hf : fn s with ⟨t, d, s1, r⟩
  rw [hf] at h
  simp only at h
  subst h
  unfold retryRequest retryReqGo
  rw [hf]

/-- A `getDevice` attempt without a building id, when the device is in
the list: it resolves the building id and fetches the record. -/
theorem getDeviceAttempt_found_res (env : Env) (deviceId : Int) (dev : DeviceListEntry)
    (hfind : (flattenDevices env.tree).find? (fun dv => dv.id == deviceId) = some dev)
    (s : ClientState) :
    (getDeviceAttempt env deviceId none s).2.2.2
      = .ok { id := deviceId, buildingId := dev.buildingId, type := JsVal.undefined,
              data := parseDeviceData (env.deviceGet deviceId dev.buildingId) } := by
  by_cases h : tokenFalsy s.contextKey <;>
    simp [getDeviceAttempt, ensureAuthRun_eq, getDevicesRun_eq, h, hfind, numFalsy]

/-- A `getDevice` attempt with an explicit nonzero building id goes
straight to the device-detail GET. -/
theorem getDeviceAttempt_direct_res (env : Env) (deviceId : Int) (bid : Int)
    (hbid : bid ≠ 0) (s : ClientState) :
    (getDeviceAttempt env deviceId (some bid) s).2.2.2
      = .ok { id := deviceId, buildingId := bid, type := JsVal.undefined,
              data := parseDeviceData (env.deviceGet deviceId bid) } := by
  by_cases h : tokenFalsy s.contextKey <;>
    simp [getDeviceAttempt, ensureAuthRun_eq, h, numFalsy, hbid]

/-- A `getDevice` attempt without a building id, when the device is not
in the list: NotFound, before any device-detail GET. -/
theorem getDeviceAttempt_absent (env : Env) (deviceId : Int)
    (hfind : (flattenDevices env.tree).find? (fun dv => dv.id == deviceId) = none)
    (s : ClientState) :
    (getDeviceAttempt env deviceId none s).2.2.2 = .error (notFoundError deviceId)
      ∧ (getDeviceAttempt env deviceId none s).1.all (fun ev => !isDeviceGetEv ev) = true := by
  by_cases h : tokenFalsy s.contextKey
  · by_cases hk : tokenFalsy (some env.loginKey) <;>
      simp [getDeviceAttempt, ensureAuthRun_eq, getDevicesRun_eq, h, hk, hfind, numFalsy,
        isDeviceGetEv]
  · simp [getDeviceAttempt, ensureAuthRun_eq, getDevicesRun_eq, h, hfind, numFalsy,
      isDeviceGetEv]

/-- C8: `getDevice` without a building id returns the same record as
`getDevice` with the building id that the device list holds for that
device; and for a device id absent from the topology it fails with the
NotFound error without ever issuing a device-detail GET. -/
theorem getDevice_resolution_consistent :
    (∀ (env : Env) (s : ClientState) (deviceId : Int) (dev : DeviceListEntry),
      (flattenDevices env.tree).find? (fun dv => dv.id == deviceId) = some dev →
      (getDeviceRun env deviceId none s).2.2.2
        = (getDeviceRun env deviceId (some dev.buildingId) s).2.2.2)
    ∧ (∀ (env : Env) (s : ClientState) (deviceId : Int),
      (flattenDevices env.tree).find? (fun dv => dv.id == deviceId) = none →
      (getDeviceRun env deviceId none s).2.2.2 = .error (notFoundError deviceId)
        ∧ (getDeviceRun env deviceId none s).1.all (fun ev => !isDeviceGetEv ev) = true) := by
  constructor
  · intro env s deviceId dev hfind
    by_cases hb : dev.buildingId = 0
    · rw [hb, getDeviceRun_buildingId_zero]
    · unfold getDeviceRun
      rw [retryRequest_ok_res _ s _ (getDeviceAttempt_found_res env deviceId dev hfind s),
        retryRequest_ok_res _ s _ (getDeviceAttempt_direct_res env deviceId dev.buildingId hb s)]
  · intro env s deviceId hfind
    exact retryRequest_error_lift _ _ _ (fun s1 => getDeviceAttempt_absent env deviceId hfind s1) s

/-- A concrete one-building environment used by the witnesses and
counterexamples: device 7 lives in building 5; device 9 is absent. -/
def wEnv : Env :=
  { loginKey := "key1"
    tree := [{ ID := 5, Structure := { Floors := [{ Areas := [{ Devices :=
        [{ DeviceID := 7, DeviceName := "AC", Device := wRaw }] }] }] } }]
    deviceGet := fun _ _ => wRaw
    energyData := {} }

/-- The single flattened device-list entry of `wEnv`. -/
def wDev : DeviceListEntry :=
  { id := 7, index := 0, buildingId := 5, name := "AC", type := .num 0,
    data := parseDeviceData wRaw }

/-- Witness for C8 on a concrete one-building topology: id 7 is present
with building id 5; id 9 is absent. -/
theorem getDevice_resolution_consistent_witness :
    ((flattenDevices wEnv.tree).find? (fun dv => dv.id == 7) = some wDev
      ∧ (getDeviceRun wEnv 7 none { contextKey := none }).2.2.2
        = (getDeviceRun wEnv 7 (some wDev.buildingId) { contextKey := none }).2.2.2)
    ∧ ((flattenDevices wEnv.tree).find? (fun dv => dv.id == 9) = none
      ∧ (getDeviceRun wEnv 9 none { contextKey := none }).2.2.2
          = .error (notFoundError 9)) := by
  have hfind : (flattenDevices wEnv.tree).find? (fun dv => dv.id == 7) = some wDev := by
    decide
  have habsent : (flattenDevices wEnv.tree).find? (fun dv => dv.id == 9) = none := by decide
  exact ⟨⟨hfind, getDevice_resolution_consistent.1 wEnv { contextKey := none } 7 wDev hfind⟩,
    ⟨habsent, (getDevice_resolution_consistent.2 wEnv { contextKey := none } 9 habsent).1⟩⟩

/-- The events `getDevice` and its inner calls may trace: login, device
list, device detail — never a command or energy POST. -/
def basicEv : Ev → Bool
  | .login => true
  | .listDevices => true
  | .deviceGet _ _ => true
  | _ => false

theorem basicEv_not_post (ev : Ev) (h : basicEv ev = true) : (!isPostEv ev) = true := by
  cases ev <;> simp [basicEv, isPostEv] at h ⊢

theorem basicEv_not_energy (ev : Ev) (h : basicEv ev = true) : (!isEnergyEv ev) = true := by
  cases ev <;> simp [basicEv, isEnergyEv] at h ⊢

theorem all_imp (l : List Ev) (P Q : Ev → Bool) (h : ∀ ev, P ev = true → Q ev = true)
    (hl : l.all P = true) : l.all Q = true := by
  rw [List.all_eq_true] at hl ⊢
  exact fun x hx => h x (hl x hx)

/-- If every attempt's trace satisfies `P`, so does the wrapped run's
trace, whatever the outcomes. -/
theorem retryReqGo_trace_lift (fn : ClientState → Run α) (P : Ev → Bool)
    (hfn : ∀ s, (fn s).1.all P = true) :
    ∀ (fuel retries : Nat) (s : ClientState),
      (retryReqGo fn 2 fuel retries s).1.all P = true := by
  intro fuel
  induction fuel with
  | zero =>
    intro retries s
    have hp := hfn s
    rcases hf : fn s with ⟨t, d, s1, r⟩
    rw [hf] at hp
    simp only at hp
    cases r <;> (unfold retryReqGo; rw [hf]; simp [hp])
  | succ fuel ih =>
    intro retries s
    have hp := hfn s
    rcases hf : fn s with ⟨t, d, s1, r⟩
    rw [hf] at hp
    simp only at hp
    cases r with
    | ok v => unfold retryReqGo; rw [hf]; simp [hp]
    | error e =>
      by_cases hcond : (shouldRetryError e && decide (retries < 2)) = true
      · have ihp := ih (retries + 1)
          (if e.response = some 401 then { s1 with contextKey := none } else s1)
        rcases hrec : retryReqGo fn 2 fuel (retries + 1)
            (if e.response = some 401 then { s1 with contextKey := none } else s1)
          with ⟨t2, d2, s3, r2⟩
        rw [hrec] at ihp
        simp only at ihp
        unfold retryReqGo
        rw [hf]
        simp [hcond, hrec, hp, ihp]
      · unfold retryReqGo; rw [hf]; simp [hcond, hp]

/-- Every event a `getDevice` attempt traces is basic. -/
theorem getDeviceAttempt_trace_basic (env : Env) (deviceId : Int) (b : Option Int)
    (s : ClientState) : (getDeviceAttempt env deviceId b s).1.all basicEv = true := by
  by_cases h : tokenFalsy s.contextKey <;>
  by_cases hk : tokenFalsy (some env.loginKey) <;>
  by_cases hnf : numFalsy b <;>
  rcases hf : (flattenDevices env.tree).find? (fun dv => dv.id == deviceId) with _ | dv <;>
  simp [getDeviceAttempt, ensureAuthRun_eq, getDevicesRun_eq, h, hk, hnf, hf, basicEv]

/-- Every event a `getDevice` run traces is basic. -/
theorem getDeviceRun_trace_basic (env : Env) (deviceId : Int) (b : Option Int)
    (s : ClientState) : (getDeviceRun env deviceId b s).1.all basicEv = true :=
  retryReqGo_trace_lift _ _ (fun s1 => getDeviceAttempt_trace_basic env deviceId b s1) 2 0 s

/-- Whenever the device id is in the list, `getDevice` succeeds (for any
supplied building id) and returns a record whose `type` property is
`undefined`. -/
theorem getDeviceRun_res_found (env : Env) (deviceId : Int) (b : Option Int)
    (s : ClientState) (dev : DeviceListEntry)
    (hfind : (flattenDevices env.tree).find? (fun dv => dv.id == deviceId) = some dev) :
    ∃ bid, (getDeviceRun env deviceId b s).2.2.2
      = .ok { id := deviceId, buildingId := bid, type := JsVal.undefined,
              data := parseDeviceData (env.deviceGet deviceId bid) } := by
  rcases b with _ | bid
  · exact ⟨dev.buildingId,
      retryRequest_ok_res _ s _ (getDeviceAttempt_found_res env deviceId dev hfind s)⟩
  · by_cases hb : bid = 0
    · subst hb
      rw [getDeviceRun_buildingId_zero]
      exact ⟨dev.buildingId,
        retryRequest_ok_res _ s _ (getDeviceAttempt_found_res env deviceId dev hfind s)⟩
    · exact ⟨bid,
        retryRequest_ok_res _ s _ (getDeviceAttempt_direct_res env deviceId bid hb s)⟩

/-- Zero supplied fields make the `setDevice` payload construction
throw. -/
theorem buildAtaPayload_empty (deviceId : Int) (cur : ParsedDevice) :
    buildAtaPayload deviceId cur {} = .error noValidParamsError := rfl

/-- One `setDevice` attempt with zero supplied fields on a present
device: the current state is fetched, then the zero-bitmask check
throws; no command POST is traced. -/
theorem setDeviceAttempt_empty (env : Env) (deviceId : Int) (b : Option Int)
    (dev : DeviceListEntry)
    (hfind : (flattenDevices env.tree).find? (fun dv => dv.id == deviceId) = some dev)
    (s : ClientState) :
    (setDeviceAttempt env deviceId {} b s).2.2.2 = .error noValidParamsError
      ∧ (setDeviceAttempt env deviceId {} b s).1.all (fun ev => !isPostEv ev) = true := by
  rcases hA : ensureAuthRun env s with ⟨tA, dA, sA⟩
  have htA : tA.all basicEv = true := by
    have h0 : (ensureAuthRun env s).1.all basicEv = true := by
      by_cases h : tokenFalsy s.contextKey <;> simp [ensureAuthRun_eq, h, basicEv]
    rw [hA] at h0
    exact h0
  obtain ⟨bid, hok⟩ := getDeviceRun_res_found env deviceId b sA dev hfind
  have htG : (getDeviceRun env deviceId b sA).1.all basicEv = true :=
    getDeviceRun_trace_basic env deviceId b sA
  rcases hG : getDeviceRun env deviceId b sA with ⟨tG, dG, sG, rG⟩
  rw [hG] at hok htG
  simp only at hok htG
  subst hok
  constructor
  · simp [setDeviceAttempt, hA, hG, buildAtaPayload_empty]
  · simp only [setDeviceAttempt, hA, hG, buildAtaPayload_empty, List.all_append,
      Bool.and_eq_true]
    exact ⟨all_imp tA basicEv _ basicEv_not_post htA, all_imp tG basicEv _ basicEv_not_post htG⟩

/-- One `setHeatPumpDevice` attempt on a present device always throws
the capability-check error — the record `getDevice` returns has no
`type` property, so `currentStatus.type !== 1` always holds — and never
traces a command POST. -/
theorem setHeatPumpDeviceAttempt_always_type_error (env : Env) (deviceId : Int)
    (params : AtwParams) (b : Option Int) (dev : DeviceListEntry)
    (hfind : (flattenDevices env.tree).find? (fun dv => dv.id == deviceId) = some dev)
    (s : ClientState) :
    (setHeatPumpDeviceAttempt env deviceId params b s).2.2.2 = .error notHeatPumpError
      ∧ (setHeatPumpDeviceAttempt env deviceId params b s).1.all (fun ev => !isPostEv ev)
          = true := by
  rcases hA : ensureAuthRun env s with ⟨tA, dA, sA⟩
  have htA : tA.all basicEv = true := by
    have h0 : (ensureAuthRun env s).1.all basicEv = true := by
      by_cases h : tokenFalsy s.contextKey <;> simp [ensureAuthRun_eq, h, basicEv]
    rw [hA] at h0
    exact h0
  obtain ⟨bid, hok⟩ := getDeviceRun_res_found env deviceId b sA dev hfind
  have htG : (getDeviceRun env deviceId b sA).1.all basicEv = true :=
    getDeviceRun_trace_basic env deviceId b sA
  rcases hG : getDeviceRun env deviceId b sA with ⟨tG, dG, sG, rG⟩
  rw [hG] at hok htG
  simp only at hok htG
  subst hok
  constructor
  · simp [setHeatPumpDeviceAttempt, hA, hG]
  · simp only [setHeatPumpDeviceAttempt, hA, hG, List.all_append]
    simp only [ne_eq, reduceCtorEq, not_false_eq_true, if_true, List.all_append,
      Bool.and_eq_true]
    exact ⟨all_imp tA basicEv _ basicEv_not_post htA, all_imp tG basicEv _ basicEv_not_post htG⟩

/-- C2 counterexample: a `setDevice` call with zero supplied fields does
raise the validation error, but only after HTTP requests (the device
list and the device-detail GET of the current-state fetch) have already
been issued — refuting that no HTTP request of any kind precedes the
error. -/
theorem setDevice_zero_fields_network_precedes_error :
    (setDeviceRun wEnv 7 {} none { contextKey := none }).2.2.2 = .error noValidParamsError
    ∧ Ev.deviceGet 7 5 ∈ (setDeviceRun wEnv 7 {} none { contextKey := none }).1
    ∧ Ev.listDevices ∈ (setDeviceRun wEnv 7 {} none { contextKey := none }).1 :=
  ⟨by decide, by decide, by decide⟩

/-- C2 (amended): a `setDevice` call supplying zero recognized fields on
a device present in the topology rejects with the validation error
`No valid parameters provided to set`, after the current-state fetch
but before any command POST (no `SetAta`/`SetAtw` request is ever
issued); a zero-field `setHeatPumpDevice` call also rejects without any
command POST, but with the error `Device is not a heat pump (ATW
device)`, because the capability check reads a `type` property the
`getDevice` record does not carry and therefore fires first. -/
theorem setDevice_zero_fields_rejected_before_submit :
    ∀ (env : Env) (s : ClientState) (deviceId : Int) (b : Option Int)
      (dev : DeviceListEntry),
      (flattenDevices env.tree).find? (fun dv => dv.id == deviceId) = some dev →
      ((setDeviceRun env deviceId {} b s).2.2.2 = .error noValidParamsError
        ∧ (setDeviceRun env deviceId {} b s).1.all (fun ev => !isPostEv ev) = true)
      ∧ ((setHeatPumpDeviceRun env deviceId {} b s).2.2.2 = .error notHeatPumpError
        ∧ (setHeatPumpDeviceRun env deviceId {} b s).1.all (fun ev => !isPostEv ev)
            = true) := by
  intro env s deviceId b dev hfind
  exact ⟨retryRequest_error_lift _ _ _
      (fun s1 => setDeviceAttempt_empty env deviceId b dev hfind s1) s,
    retryRequest_error_lift _ _ _
      (fun s1 => setHeatPumpDeviceAttempt_always_type_error env deviceId {} b dev hfind s1) s⟩

/-- Witness for the amended C2 on the concrete topology. -/
theorem setDevice_zero_fields_rejected_before_submit_witness :
    (flattenDevices wEnv.tree).find? (fun dv => dv.id == 7) = some wDev
    ∧ (setDeviceRun wEnv 7 {} none { contextKey := none }).2.2.2
        = .error noValidParamsError
    ∧ (setHeatPumpDeviceRun wEnv 7 {} none { contextKey := none }).2.2.2
        = .error notHeatPumpError := by
  have hfind : (flattenDevices wEnv.tree).find? (fun dv => dv.id == 7) = some wDev := by
    decide
  exact ⟨hfind,
    ((setDevice_zero_fields_rejected_before_submit wEnv { contextKey := none } 7 none wDev
        hfind).1).1,
    ((setDevice_zero_fields_rejected_before_submit wEnv { contextKey := none } 7 none wDev
        hfind).2).1⟩

/-- One `getEnergyReport` attempt with a malformed date on a present
device: the date check throws (after resolution), and no energy POST is
traced. -/
theorem getEnergyReportAttempt_baddate (env : Env) (deviceId : Int)
    (fromDate toDate : String) (b : Option Int) (dev : DeviceListEntry)
    (hfind : (flattenDevices env.tree).find? (fun dv => dv.id == deviceId) = some dev)
    (hdate : (!(isDateFormat fromDate) || !(isDateFormat toDate)) = true)
    (s : ClientState) :
    (getEnergyReportAttempt env deviceId fromDate toDate b s).2.2.2 = .error dateFormatError
      ∧ (getEnergyReportAttempt env deviceId fromDate toDate b s).1.all
          (fun ev => !isEnergyEv ev) = true := by
  by_cases h : tokenFalsy s.contextKey <;>
  by_cases hk : tokenFalsy (some env.loginKey) <;>
  by_cases hnf : numFalsy b <;>
  simp [getEnergyReportAttempt, ensureAuthRun_eq, getDevicesRun_eq, h, hk, hnf, hfind,
    hdate, isEnergyEv]

/-- C7 counterexample: `getEnergyReport` with the malformed date
`2024-1-1` and no building id does reject with the date ValidationError,
but the device-list request of the building-id resolution has already
been issued — refuting that the validation precedes any network call,
including the building-id resolution. -/
theorem energyReport_resolution_precedes_date_validation :
    isDateFormat "2024-1-1" = false
    ∧ (getEnergyReportRun wEnv 7 "2024-1-1" "2024-01-31" none
        { contextKey := none }).2.2.2 = .error dateFormatError
    ∧ Ev.listDevices ∈ (getEnergyReportRun wEnv 7 "2024-1-1" "2024-01-31" none
        { contextKey := none }).1 :=
  ⟨by decide, by decide, by decide⟩

/-- C7 (amended): `getEnergyReport` with a date not matching the strict
`YYYY-MM-DD` pattern rejects with `Date format must be YYYY-MM-DD`
(locally — the validation needs no response), but authentication and
the building-id resolution via the device list run first; the
validation precedes only the energy-report POST itself, which is never
issued. -/
theorem energyReport_malformed_date_rejected_before_post :
    ∀ (env : Env) (s : ClientState) (deviceId : Int) (fromDate toDate : String)
      (b : Option Int) (dev : DeviceListEntry),
      (flattenDevices env.tree).find? (fun dv => dv.id == deviceId) = some dev →
      (!(isDateFormat fromDate) || !(isDateFormat toDate)) = true →
      (getEnergyReportRun env deviceId fromDate toDate b s).2.2.2 = .error dateFormatError
        ∧ (getEnergyReportRun env deviceId fromDate toDate b s).1.all
            (fun ev => !isEnergyEv ev) = true := by
  intro env s deviceId fromDate toDate b dev hfind hdate
  exact retryRequest_error_lift _ _ _
    (fun s1 => getEnergyReportAttempt_baddate env deviceId fromDate toDate b dev
      hfind hdate s1) s

/-- Witness for the amended C7 on the concrete topology. -/
theorem energyReport_malformed_date_rejected_before_post_witness :
    (flattenDevices wEnv.tree).find? (fun dv => dv.id == 7) = some wDev
    ∧ (!(isDateFormat "2024-1-1") || !(isDateFormat "2024-01-31")) = true
    ∧ (getEnergyReportRun wEnv 7 "2024-1-1" "2024-01-31" none
        { contextKey := none }).2.2.2 = .error dateFormatError := by
  have hfind : (flattenDevices wEnv.tree).find? (fun dv => dv.id == 7) = some wDev := by
    decide
  exact ⟨hfind, by decide,
    (energyReport_malformed_date_rejected_before_post wEnv { contextKey := none } 7
      "2024-1-1" "2024-01-31" none wDev hfind (by decide)).1⟩

theorem ataStepVaneHorizontal_opMode (params : AtaParams) (p : AtaPayload) :
    (ataStepVaneHorizontal params p).OperationMode = p.OperationMode := by
  cases hp : params.vaneHorizontal <;> simp [ataStepVaneHorizontal, hp]

theorem ataStepVaneVertical_opMode (params : AtaParams) (p : AtaPayload) :
    (ataStepVaneVertical params p).OperationMode = p.OperationMode := by
  cases hp : params.vaneVertical <;> simp [ataStepVaneVertical, hp]

theorem ataStepVaneVertical_vaneH (params : AtaParams) (p : AtaPayload) :
    (ataStepVaneVertical params p).VaneHorizontal = p.VaneHorizontal := by
  cases hp : params.vaneVertical <;> simp [ataStepVaneVertical, hp]

/-- The `setDevice` payload construction accepts whenever at least one
field is supplied. -/
theorem buildAtaPayload_isOk_of_supplied (deviceId : Int) (cur : ParsedDevice)
    (params : AtaParams)
    (h : params.power.isSome = true ∨ params.temperature.isSome = true
      ∨ params.fanSpeed.isSome = true ∨ params.mode.isSome = true
      ∨ params.vaneHorizontal.isSome = true ∨ params.vaneVertical.isSome = true) :
    ∃ payload, buildAtaPayload deviceId cur params = .ok payload := by
  simp only [buildAtaPayload]
  split
  · rename_i hzero
    simp only [ataStepVaneVertical_flags, ataStepVaneHorizontal_flags, ataStepMode_flags,
      ataStepFanSpeed_flags, ataStepTemperature_flags, ataStepPower_flags] at hzero
    rcases h with h | h | h | h | h | h <;> simp [h, Nat.add_eq_zero] at hzero
  · exact ⟨_, rfl⟩

/-- The operation mode an accepted `setDevice` payload carries when the
caller supplied one: alias lookup, falling back to `parseInt`. -/
theorem buildAtaPayload_opMode (deviceId : Int) (cur : ParsedDevice) (params : AtaParams)
    (v : JsVal) (payload : AtaPayload) (hm : params.mode = some v)
    (h : buildAtaPayload deviceId cur params = .ok payload) :
    payload.OperationMode = jsOr (modeMappings (jsToLower v)) (parseInt10 (jsToLower v)) := by
  simp only [buildAtaPayload] at h
  split at h
  · exact Except.noConfusion h
  · simp only [Except.ok.injEq] at h
    subst h
    rw [ataStepVaneVertical_opMode, ataStepVaneHorizontal_opMode]
    simp [ataStepMode, hm]

/-- The horizontal vane value an accepted `setDevice` payload carries
when the caller supplied one. -/
theorem buildAtaPayload_vaneH (deviceId : Int) (cur : ParsedDevice) (params : AtaParams)
    (v : JsVal) (payload : AtaPayload) (hm : params.vaneHorizontal = some v)
    (h : buildAtaPayload deviceId cur params = .ok payload) :
    payload.VaneHorizontal
      = (if vaneHorizontalMappings (jsToLower v) ≠ .undefined
          then vaneHorizontalMappings (jsToLower v) else parseInt10 (jsToLower v)) := by
  simp only [buildAtaPayload] at h
  split at h
  · exact Except.noConfusion h
  · simp only [Except.ok.injEq] at h
    subst h
    rw [ataStepVaneVertical_vaneH]
    simp [ataStepVaneHorizontal, hm]

/-- The vertical vane value an accepted `setDevice` payload carries when
the caller supplied one. -/
theorem buildAtaPayload_vaneV (deviceId : Int) (cur : ParsedDevice) (params : AtaParams)
    (v : JsVal) (payload : AtaPayload) (hm : params.vaneVertical = some v)
    (h : buildAtaPayload deviceId cur params = .ok payload) :
    payload.VaneVertical
      = (if vaneVerticalMappings (jsToLower v) ≠ .undefined
          then vaneVerticalMappings (jsToLower v) else parseInt10 (jsToLower v)) := by
  simp only [buildAtaPayload] at h
  split at h
  · exact Except.noConfusion h
  · simp only [Except.ok.injEq] at h
    subst h
    simp [ataStepVaneVertical, hm]

/-- C6 counterexample: a `setDevice` call whose mode resolves to no
alias and parses to NaN is not rejected at all — the whole operation
succeeds and a `SetAta` POST carrying `OperationMode = NaN` goes over
the wire. -/
theorem setDevice_unresolvable_mode_not_rejected :
    (setDeviceRun wEnv 7 { mode := some (.str "xyz") } none
        { contextKey := none }).2.2.2.isOk = true
    ∧ ((setDeviceRun wEnv 7 { mode := some (.str "xyz") } none
        { contextKey := none }).1.any fun ev =>
          match ev with
          | .setAta p => (match p.OperationMode with | .nan => true | _ => false)
          | _ => false) = true :=
  ⟨by decide, by decide⟩

/-- C6 (amended): a mode or vane value that neither resolves to a known
alias (after lowercasing) nor parses as a number is not reported as an
input error: the payload construction still accepts, the field is
encoded as NaN, and the command is submitted. -/
theorem unresolvable_mode_or_vane_encoded_as_nan :
    (∀ (deviceId : Int) (cur : ParsedDevice) (params : AtaParams) (v : JsVal),
      params.mode = some v →
      modeMappings (jsToLower v) = .undefined →
      parseInt10 (jsToLower v) = .nan →
      (∃ payload, buildAtaPayload deviceId cur params = .ok payload)
        ∧ ∀ payload, buildAtaPayload deviceId cur params = .ok payload →
            payload.OperationMode = .nan)
    ∧ (∀ (deviceId : Int) (cur : ParsedDevice) (params : AtaParams) (v : JsVal),
      params.vaneHorizontal = some v →
      vaneHorizontalMappings (jsToLower v) = .undefined →
      parseInt10 (jsToLower v) = .nan →
      (∃ payload, buildAtaPayload deviceId cur params = .ok payload)
        ∧ ∀ payload, buildAtaPayload deviceId cur params = .ok payload →
            payload.VaneHorizontal = .nan)
    ∧ (∀ (deviceId : Int) (cur : ParsedDevice) (params : AtaParams) (v : JsVal),
      params.vaneVertical = some v →
      vaneVerticalMappings (jsToLower v) = .undefined →
      parseInt10 (jsToLower v) = .nan →
      (∃ payload, buildAtaPayload deviceId cur params = .ok payload)
        ∧ ∀ payload, buildAtaPayload deviceId cur params = .ok payload →
            payload.VaneVertical = .nan) := by
  refine ⟨?_, ?_, ?_⟩
  · intro deviceId cur params v hm hlook hparse
    constructor
    · exact buildAtaPayload_isOk_of_supplied deviceId cur params
        (Or.inr (Or.inr (Or.inr (Or.inl (by rw [hm]; rfl)))))
    · intro payload h
      rw [buildAtaPayload_opMode deviceId cur params v payload hm h, hlook, hparse]
      simp [jsOr, JsVal.truthy]
  · intro deviceId cur params v hm hlook hparse
    constructor
    · exact buildAtaPayload_isOk_of_supplied deviceId cur params
        (Or.inr (Or.inr (Or.inr (Or.inr (Or.inl (by rw [hm]; rfl))))))
    · intro payload h
      rw [buildAtaPayload_vaneH deviceId cur params v payload hm h, hlook, hparse]
      simp
  · intro deviceId cur params v hm hlook hparse
    constructor
    · exact buildAtaPayload_isOk_of_supplied deviceId cur params
        (Or.inr (Or.inr (Or.inr (Or.inr (Or.inr (by rw [hm]; rfl))))))
    · intro payload h
      rw [buildAtaPayload_vaneV deviceId cur params v payload hm h, hlook, hparse]
      simp

/-- Witness for the amended C6 with the unresolvable mode `xyz`. -/
theorem unresolvable_mode_or_vane_encoded_as_nan_witness :
    modeMappings (jsToLower (.str "xyz")) = .undefined
    ∧ parseInt10 (jsToLower (.str "xyz")) = .nan
    ∧ (∃ payload, buildAtaPayload 7 (parseDeviceData wRaw)
        { mode := some (.str "xyz") } = .ok payload)
    ∧ (∀ payload, buildAtaPayload 7 (parseDeviceData wRaw)
        { mode := some (.str "xyz") } = .ok payload → payload.OperationMode = .nan) := by
  have h := unresolvable_mode_or_vane_encoded_as_nan.1 7 (parseDeviceData wRaw)
    { mode := some (.str "xyz") } (.str "xyz") rfl (by decide) (by decide)
  exact ⟨by decide, by decide, h.1, h.2⟩

/-- The raw record exhibiting the C5 fan-speed divergence: a legitimate
`SetFanSpeed = 0` (auto) with a different live `FanSpeed`. -/
def c5Raw : RawDevice :=
  { SetFanSpeed := .num 0, FanSpeed := .num 3, OperationMode := .num 1,
    VaneHorizontalDirection := .num 12, VaneVerticalDirection := .num 7 }

/-- C5: decoding does preserve the mode and vane raw codes verbatim, but
`fanSpeedRaw` is computed with the truthy-or fallback
`SetFanSpeed || FanSpeed`, so a raw `SetFanSpeed` of 0 decodes to the
`FanSpeed` value 3 instead, and re-encoding seeds the command payload
with 3 rather than the original 0 — the round trip does not preserve the
raw code. -/
theorem fanSpeedRaw_truthy_fallback_breaks_roundtrip :
    c5Raw.SetFanSpeed = .num 0
    ∧ (parseDeviceData c5Raw).fanSpeedRaw = .num 3
    ∧ (parseDeviceData c5Raw).modeRaw = c5Raw.OperationMode
    ∧ (parseDeviceData c5Raw).vaneHorizontalRaw = c5Raw.VaneHorizontalDirection
    ∧ (parseDeviceData c5Raw).vaneVerticalRaw = c5Raw.VaneVerticalDirection
    ∧ (buildAtaPayload 7 (parseDeviceData c5Raw) { power := some (.bool true) }).map
        (fun p => p.SetFanSpeed) = .ok (.num 3)
    ∧ (buildAtaPayload 7 (parseDeviceData c5Raw) { power := some (.bool true) }).map
        (fun p => p.OperationMode) = .ok (.num 1) :=
  ⟨rfl, rfl, rfl, rfl, rfl, rfl, rfl⟩

/-- C10: a falsy remote `ErrorCode` (absent, null, or the literal 0)
decodes to the sentinel 8000, a decoded device never exposes error code
0, and a remote error code of 0 is indistinguishable from an absent
one. -/
theorem errorCode_falsy_defaults_to_8000 :
    (∀ d : RawDevice, d.ErrorCode.truthy = false → (parseDeviceData d).errorCode = .num 8000)
    ∧ (∀ d : RawDevice, (parseDeviceData d).errorCode ≠ .num 0)
    ∧ (∀ d : RawDevice, parseDeviceData { d with ErrorCode := .num 0 }
        = parseDeviceData { d with ErrorCode := .undefined }) := by
  refine ⟨?_, ?_, fun d => rfl⟩
  · intro d h
    simp [parseDeviceData, jsOr, h]
  · intro d
    simp only [parseDeviceData]
    cases hc : d.ErrorCode with
    | num n => by_cases hn : n = 0 <;> simp [jsOr, JsVal.truthy, hn]
    | str s => by_cases hs : s = "" <;> simp [jsOr, JsVal.truthy, hs]
    | bool b => cases b <;> simp [jsOr, JsVal.truthy]
    | undefined => simp [jsOr, JsVal.truthy]
    | null => simp [jsOr, JsVal.truthy]
    | nan => simp [jsOr, JsVal.truthy]

/-- Witness for C10: an absent `ErrorCode` and the literal 0 both decode
to 8000. -/
theorem errorCode_falsy_defaults_to_8000_witness :
    ((({} : RawDevice).ErrorCode).truthy = false
      ∧ (parseDeviceData {}).errorCode = .num 8000)
    ∧ ((({ ErrorCode := .num 0 } : RawDevice).ErrorCode).truthy = false
      ∧ (parseDeviceData { ErrorCode := .num 0 }).errorCode = .num 8000) :=
  ⟨⟨by decide, errorCode_falsy_defaults_to_8000.1 {} (by decide)⟩,
    ⟨by decide, errorCode_falsy_defaults_to_8000.1 { ErrorCode := .num 0 } (by decide)⟩⟩

end MELCloud
